import Mathlib

/-!
Property valuation service: embedding and verification.

A shallow embedding of the Go packages `valuation`, `validation`, `errors`,
`testutil` and of the RPC handler of `cmd/server.go`.

Conventions of the embedding.

* Go `float64` values are exact rationals (`ℚ`): every constant of the program is
  a finite decimal and the program only adds, multiplies, compares and takes
  `max`/`min`, so the results below are statements about the arithmetic taken
  exactly.  Where a statement turns on the rounding of `float64`, the two blocks of
  the scorer that compute a score by arithmetic are given a second time with every
  operation rounded to the nearest `float64` (`roundF64`), under names ending in
  `F64`.
* Go `int` values are unbounded integers (`Int`).  The only integer arithmetic of
  the program is `currentYear - property.YearBuilt`; requests reach the handler
  with 32-bit fields, so that subtraction is exact.
* Go maps with literal contents are association lists in source order, looked up
  with `List.lookup`; a missing key is `none`.
* `time.Now().Year()` is the parameter `Y`.  The program reads the clock when the
  table `ConditionCriteria` is initialised and again at every call; one calendar
  year `Y` is fixed for both.
* What the Go runtime and the `fmt` package decide during one call (the order in
  which `range` visits a map, the rendering of a float under `%.Nf`) is a parameter
  `GoEnv`.  The runtime chooses the order afresh at every `range`, so two calls are
  two environments.
-/

set_option autoImplicit false

/-! ## Package `errors` -/

namespace errors

/-- ValidationError represents an error in property validation. -/
structure ValidationError where
  Field : String
  Message : String
  deriving DecidableEq, Repr

/-- The method `(*ValidationError).Error`. -/
def ValidationError.Error (e : ValidationError) : String :=
  "validation error: " ++ e.Field ++ " - " ++ e.Message

/-- The two gRPC status codes the package uses. -/
inductive Code where
  | InvalidArgument
  | Internal
  deriving DecidableEq, Repr

/-- A gRPC status error, as built by `status.Error(code, msg)`. -/
structure Status where
  code : Code
  message : String
  deriving DecidableEq, Repr

/-- A value of the Go interface type `error` that is not nil: either a
`*ValidationError` or an error of any other dynamic type, of which only the text
is kept. -/
inductive GoError where
  | validation (e : ValidationError)
  | other (text : String)
  deriving DecidableEq, Repr

/-- ConvertToGRPCError converts internal errors to gRPC errors. -/
def ConvertToGRPCError (err : GoError) : Status :=
  match err with
  | .validation e => ⟨Code.InvalidArgument, e.Error⟩
  | .other _ => ⟨Code.Internal, "internal server error"⟩

def ErrInvalidPropertyType : String := "invalid property type"
def ErrInvalidCondition : String := "invalid condition"
def ErrInvalidMaintenanceLevel : String := "invalid maintenance level"
def ErrInvalidRenovationStatus : String := "invalid renovation status"
def ErrInvalidYearBuilt : String := "invalid year built"
def ErrInvalidSquareFootage : String := "invalid square footage"
def ErrInvalidBedrooms : String := "invalid number of bedrooms"
def ErrInvalidBathrooms : String := "invalid number of bathrooms"

end errors

/-! ## Package `valuation`: data model and reference tables -/

namespace valuation

structure Location where
  Latitude : ℚ
  Longitude : ℚ
  deriving DecidableEq, Repr

structure Property where
  Address : String
  PropertyType : String
  Bedrooms : Int
  Bathrooms : Int
  SquareFootage : Int
  YearBuilt : Int
  Condition : String
  Features : List String
  Location : Location
  MaintenanceLevel : String
  RenovationStatus : String
  deriving DecidableEq, Repr

/-- BasePricePerSquareFoot represents the base price per square foot for
different property types. -/
def BasePricePerSquareFoot : List (String × ℚ) :=
  [ ("apartment", 250), ("house", 300), ("condo", 275), ("townhouse", 285),
    ("villa", 350), ("studio", 225), ("loft", 275), ("penthouse", 400),
    ("suburban_house", 275), ("suburban_condo", 250), ("suburban_townhouse", 260),
    ("office_class_a", 200), ("office_class_b", 175), ("office_class_c", 150),
    ("retail_high_street", 225), ("retail_mall", 200), ("retail_strip", 175),
    ("warehouse", 125), ("industrial", 100), ("logistics", 150),
    ("manufacturing", 120) ]

/-- PropertyCondition represents detailed criteria for property conditions. -/
structure PropertyCondition where
  Multiplier : ℚ
  Criteria : List String
  Description : String
  MinYearBuilt : Int
  MaxYearBuilt : Int
  RequiredFeatures : List String
  ExcludedFeatures : List String
  MaintenanceLevel : String
  RenovationStatus : String
  deriving DecidableEq, Repr

/-- ValidationIssue represents a specific validation issue with its severity. -/
structure ValidationIssue where
  Description : String
  Severity : ℚ
  Category : String
  deriving DecidableEq, Repr

/-- ValidationResult represents the complete validation result. -/
structure ValidationResult where
  IsValid : Bool
  Issues : List ValidationIssue
  TotalScore : ℚ
  Adjustments : List (String × ℚ)
  deriving DecidableEq, Repr

/-- The entry of `ConditionCriteria` for "excellent". -/
def criteriaExcellent (Y : Int) : PropertyCondition where
  Multiplier := 140 / 100
  Description := "Like new, fully renovated, premium finishes"
  MinYearBuilt := Y - 2
  MaxYearBuilt := Y
  RequiredFeatures := ["energy_efficient", "modern_appliances", "smart_home"]
  ExcludedFeatures := ["needs_repair", "outdated_systems", "major_repairs_needed"]
  MaintenanceLevel := "excellent"
  RenovationStatus := "recent"
  Criteria :=
    [ "Built or renovated within last 2 years",
      "High-end finishes and materials",
      "All systems (HVAC, electrical, plumbing) in perfect condition",
      "No visible wear or damage",
      "Modern appliances and fixtures",
      "Energy efficient systems",
      "Professional landscaping",
      "Smart home technology" ]

/-- The entry of `ConditionCriteria` for "very_good". -/
def criteriaVeryGood (Y : Int) : PropertyCondition where
  Multiplier := 125 / 100
  Description := "Well maintained, minor updates needed"
  MinYearBuilt := Y - 5
  MaxYearBuilt := Y
  RequiredFeatures := ["updated_systems", "modern_appliances"]
  ExcludedFeatures := ["major_repairs_needed", "outdated_systems"]
  MaintenanceLevel := "very_good"
  RenovationStatus := "recent"
  Criteria :=
    [ "Built or renovated within last 5 years",
      "Quality finishes and materials",
      "All systems functioning properly",
      "Minimal wear and tear",
      "Updated appliances and fixtures",
      "Good maintenance history",
      "Attractive landscaping" ]

/-- The entry of `ConditionCriteria` for "good". -/
def criteriaGood (Y : Int) : PropertyCondition where
  Multiplier := 110 / 100
  Description := "Standard condition, some wear"
  MinYearBuilt := Y - 10
  MaxYearBuilt := Y
  RequiredFeatures := ["functional_systems"]
  ExcludedFeatures := ["system_failures", "major_repairs_needed"]
  MaintenanceLevel := "good"
  RenovationStatus := "standard"
  Criteria :=
    [ "Built or renovated within last 10 years",
      "Standard finishes and materials",
      "Systems in working order",
      "Normal wear and tear",
      "Functional appliances and fixtures",
      "Regular maintenance",
      "Basic landscaping" ]

/-- The entry of `ConditionCriteria` for "fair". -/
def criteriaFair (Y : Int) : PropertyCondition where
  Multiplier := 90 / 100
  Description := "Needs some repairs and updates"
  MinYearBuilt := Y - 15
  MaxYearBuilt := Y
  RequiredFeatures := []
  ExcludedFeatures := ["major_system_failures"]
  MaintenanceLevel := "fair"
  RenovationStatus := "needs_updates"
  Criteria :=
    [ "Built or renovated within last 15 years",
      "Some outdated finishes",
      "Systems need minor repairs",
      "Visible wear and tear",
      "Some outdated appliances",
      "Inconsistent maintenance",
      "Basic or neglected landscaping" ]

/-- The entry of `ConditionCriteria` for "poor". -/
def criteriaPoor (Y : Int) : PropertyCondition where
  Multiplier := 75 / 100
  Description := "Needs significant repairs"
  MinYearBuilt := Y - 20
  MaxYearBuilt := Y
  RequiredFeatures := []
  ExcludedFeatures := []
  MaintenanceLevel := "poor"
  RenovationStatus := "needs_repairs"
  Criteria :=
    [ "Built or renovated within last 20 years",
      "Dated finishes and materials",
      "Systems need major repairs",
      "Significant wear and damage",
      "Outdated or non-functioning appliances",
      "Poor maintenance history",
      "Minimal or no landscaping" ]

/-- The entry of `ConditionCriteria` for "needs_work". -/
def criteriaNeedsWork (Y : Int) : PropertyCondition where
  Multiplier := 60 / 100
  Description := "Major renovation required"
  MinYearBuilt := 0
  MaxYearBuilt := Y - 20
  RequiredFeatures := []
  ExcludedFeatures := []
  MaintenanceLevel := "very_poor"
  RenovationStatus := "needs_renovation"
  Criteria :=
    [ "Over 20 years old with no recent updates",
      "Deteriorated finishes and materials",
      "Systems need complete replacement",
      "Extensive damage and wear",
      "Non-functioning or missing appliances",
      "Long-term neglect",
      "No landscaping" ]

/-- ConditionCriteria represents the detailed criteria for different property
conditions; `Y` is the year the clock showed when the table was initialised. -/
def ConditionCriteria (Y : Int) : List (String × PropertyCondition) :=
  [ ("excellent", criteriaExcellent Y), ("very_good", criteriaVeryGood Y),
    ("good", criteriaGood Y), ("fair", criteriaFair Y), ("poor", criteriaPoor Y),
    ("needs_work", criteriaNeedsWork Y) ]

/-- FeatureValue represents the value added by different property features. -/
def FeatureValue : List (String × ℚ) :=
  [ ("garage", 20000), ("garden", 25000), ("pool", 35000), ("tennis_court", 40000),
    ("security_gate", 15000), ("fence", 10000), ("patio", 12000), ("deck", 15000),
    ("balcony", 8000), ("roof_garden", 30000),
    ("fireplace", 12000), ("basement", 30000), ("wine_cellar", 25000),
    ("home_office", 15000), ("walk_in_closet", 8000), ("laundry_room", 10000),
    ("mudroom", 5000),
    ("smart_home", 20000), ("security_system", 15000), ("cctv", 10000),
    ("solar_panels", 25000), ("energy_efficient", 15000), ("double_glazing", 12000),
    ("elevator", 40000), ("concierge", 20000), ("gym", 30000), ("spa", 35000),
    ("movie_room", 25000) ]

/-- LocationMultiplier represents the multiplier for different property
locations (no function of the package reads it). -/
def LocationMultiplier : List (String × ℚ) :=
  [ ("urban", 120 / 100), ("suburban", 100 / 100), ("rural", 85 / 100),
    ("waterfront", 130 / 100), ("mountain", 115 / 100), ("beach", 125 / 100) ]

/-! ## The arithmetic of `float64` -/

/-- The number of halvings that bring `n` below 2, with at most `fuel` rounds. -/
def log2Fuel : Nat → Nat → Nat
  | 0, _ => 0
  | fuel + 1, n => if 2 ≤ n then log2Fuel fuel (n / 2) + 1 else 0

/-- The position of the leading bit of a positive natural number. -/
def natLog2 (n : Nat) : Nat := log2Fuel n n

/-- The power of two `2^e` for an integer exponent. -/
def pow2 (e : Int) : ℚ :=
  if 0 ≤ e then (2 : ℚ) ^ e.toNat else 1 / (2 : ℚ) ^ (-e).toNat

/-- The exponent `e` with `2^e ≤ a < 2^(e+1)`, for a positive rational `a`. -/
def floorLog2 (a : ℚ) : Int :=
  let e0 : Int := (natLog2 a.num.natAbs : Int) - (natLog2 a.den : Int)
  if pow2 e0 ≤ a then e0 else e0 - 1

/-- The integer nearest to a rational that is not negative, ties going to the even
one. -/
def roundHalfEven (x : ℚ) : Nat :=
  let lower : Nat := x.floor.toNat
  let rest : ℚ := x - lower
  if rest > 1 / 2 ∨ (rest = 1 / 2 ∧ lower % 2 = 1) then lower + 1 else lower

/-- The `float64` nearest to a rational, ties going to the even significand (53
bits, least exponent -1022, subnormal numbers included); overflow to infinity is
left out, no value of the program comes near it. -/
def roundF64 (x : ℚ) : ℚ :=
  if x = 0 then 0
  else
    let a : ℚ := |x|
    let e : Int := max (floorLog2 a) (-1022)
    let quantum : ℚ := pow2 (e - 52)
    (if x < 0 then -1 else 1) * (roundHalfEven (a / quantum) : ℚ) * quantum

/-- The `float64` product of two `float64` values. -/
def f64Mul (x y : ℚ) : ℚ := roundF64 (x * y)

/-- The `float64` difference of two `float64` values. -/
def f64Sub (x y : ℚ) : ℚ := roundF64 (x - y)

/-! ## Package `valuation`: the condition scorer -/

/-- The inner loop of the required-feature check: `found` after ranging over
`property.Features` and breaking at the first entry equal to `required`. -/
def featureFound (required : String) : List String → Bool
  | [] => false
  | feature :: rest => if feature = required then true else featureFound required rest

/-- The issue logged for a year built outside the range of the condition. -/
def ageIssue (property : Property) (condition : PropertyCondition) : ValidationIssue where
  Description :=
    "Property year built (" ++ toString property.YearBuilt
      ++ ") is outside the acceptable range (" ++ toString condition.MinYearBuilt
      ++ "-" ++ toString condition.MaxYearBuilt ++ ") for " ++ condition.Description
      ++ " condition"
  Severity := if property.YearBuilt < condition.MinYearBuilt then 9 / 10 else 8 / 10
  Category := "age"

/-- The block "Validate year built": the issue list after the block and
`yearScore`. -/
def validateYearBuilt (property : Property) (condition : PropertyCondition)
    (issues : List ValidationIssue) : List ValidationIssue × ℚ :=
  if property.YearBuilt < condition.MinYearBuilt
      ∨ property.YearBuilt > condition.MaxYearBuilt then
    (issues ++ [ageIssue property condition], 1 / 2)
  else
    (issues, 1)

/-- The issue logged for a required feature the property lacks. -/
def missingFeatureIssue (required : String) : ValidationIssue where
  Description := "Missing required feature: " ++ required
  Severity := 7 / 10
  Category := "feature"

/-- One round of the loop over `condition.RequiredFeatures`; the state is the
issue list and `missingFeatures`. -/
def requiredFeatureStep (property : Property) (st : List ValidationIssue × Nat)
    (required : String) : List ValidationIssue × Nat :=
  if featureFound required property.Features then st
  else (st.1 ++ [missingFeatureIssue required], st.2 + 1)

/-- The block "Validate required features": the issue list after the block and
`featureScore`, the arithmetic taken exactly (`validateRequiredFeaturesF64` is the
block with the rounding of `float64`). -/
def validateRequiredFeatures (property : Property) (condition : PropertyCondition)
    (issues : List ValidationIssue) : List ValidationIssue × ℚ :=
  let st := condition.RequiredFeatures.foldl (requiredFeatureStep property) (issues, 0)
  (st.1, if st.2 > 0 then 1 - (st.2 : ℚ) * (2 / 10) else 1)

/-- The issue logged for an excluded feature the property has. -/
def excludedFeatureIssue (excluded : String) : ValidationIssue where
  Description := "Property has excluded feature: " ++ excluded
  Severity := 6 / 10
  Category := "feature"

/-- One round of the inner loop of the excluded-feature check; the state is the
issue list and `excludedScore`, the arithmetic taken exactly
(`excludedFeatureInnerF64` is the round with the rounding of `float64`). -/
def excludedFeatureInner (excluded : String) (st : List ValidationIssue × ℚ)
    (feature : String) : List ValidationIssue × ℚ :=
  if feature = excluded then (st.1 ++ [excludedFeatureIssue excluded], st.2 * (8 / 10))
  else st

/-- One round of the loop over `condition.ExcludedFeatures`. -/
def excludedFeatureStep (property : Property) (st : List ValidationIssue × ℚ)
    (excluded : String) : List ValidationIssue × ℚ :=
  property.Features.foldl (excludedFeatureInner excluded) st

/-- The block "Validate excluded features": the issue list after the block and
`excludedScore`. -/
def validateExcludedFeatures (property : Property) (condition : PropertyCondition)
    (issues : List ValidationIssue) : List ValidationIssue × ℚ :=
  condition.ExcludedFeatures.foldl (excludedFeatureStep property) (issues, 1)

/-- The block "Validate required features" in `float64`: the same loop, and
`featureScore = 1.0 - (float64(missingFeatures) * 0.2)` with the constant 0.2, the
product and the difference each rounded to `float64`. -/
def validateRequiredFeaturesF64 (property : Property) (condition : PropertyCondition)
    (issues : List ValidationIssue) : List ValidationIssue × ℚ :=
  let st := condition.RequiredFeatures.foldl (requiredFeatureStep property) (issues, 0)
  (st.1, if st.2 > 0 then f64Sub 1 (f64Mul (roundF64 (st.2 : ℚ)) (roundF64 (2 / 10))) else 1)

/-- One round of the inner loop of the excluded-feature check in `float64`:
`excludedScore *= 0.8` with the constant 0.8 and the product rounded to `float64`. -/
def excludedFeatureInnerF64 (excluded : String) (st : List ValidationIssue × ℚ)
    (feature : String) : List ValidationIssue × ℚ :=
  if feature = excluded then
    (st.1 ++ [excludedFeatureIssue excluded], f64Mul st.2 (roundF64 (8 / 10)))
  else st

/-- One round of the loop over `condition.ExcludedFeatures` in `float64`. -/
def excludedFeatureStepF64 (property : Property) (st : List ValidationIssue × ℚ)
    (excluded : String) : List ValidationIssue × ℚ :=
  property.Features.foldl (excludedFeatureInnerF64 excluded) st

/-- The block "Validate excluded features" in `float64`. -/
def validateExcludedFeaturesF64 (property : Property) (condition : PropertyCondition)
    (issues : List ValidationIssue) : List ValidationIssue × ℚ :=
  condition.ExcludedFeatures.foldl (excludedFeatureStepF64 property) (issues, 1)

/-- The issue logged for a maintenance level that differs from the expected one. -/
def maintenanceIssue (property : Property) (condition : PropertyCondition) :
    ValidationIssue where
  Description :=
    "Maintenance level (" ++ property.MaintenanceLevel
      ++ ") does not match expected level (" ++ condition.MaintenanceLevel ++ ") for "
      ++ condition.Description ++ " condition"
  Severity :=
    if property.MaintenanceLevel = "very_poor" ∧ condition.MaintenanceLevel = "excellent"
    then 9 / 10 else 5 / 10
  Category := "maintenance"

/-- The block "Validate maintenance level": the issue list after the block and
`maintenanceScore`. -/
def validateMaintenance (property : Property) (condition : PropertyCondition)
    (issues : List ValidationIssue) : List ValidationIssue × ℚ :=
  if property.MaintenanceLevel ≠ condition.MaintenanceLevel then
    (issues ++ [maintenanceIssue property condition], 7 / 10)
  else
    (issues, 1)

/-- The issue logged for a renovation status that differs from the expected one. -/
def renovationIssue (property : Property) (condition : PropertyCondition) :
    ValidationIssue where
  Description :=
    "Renovation status (" ++ property.RenovationStatus
      ++ ") does not match expected status (" ++ condition.RenovationStatus ++ ") for "
      ++ condition.Description ++ " condition"
  Severity :=
    if property.RenovationStatus = "needs_renovation" ∧ condition.RenovationStatus = "recent"
    then 9 / 10 else 6 / 10
  Category := "renovation"

/-- The block "Validate renovation status": the issue list after the block and
`renovationScore`. -/
def validateRenovation (property : Property) (condition : PropertyCondition)
    (issues : List ValidationIssue) : List ValidationIssue × ℚ :=
  if property.RenovationStatus ≠ condition.RenovationStatus then
    (issues ++ [renovationIssue property condition], 7 / 10)
  else
    (issues, 1)

/-- The assignment `m[key] = value` on a Go map kept as an association list. -/
def mapSet (m : List (String × ℚ)) (key : String) (value : ℚ) : List (String × ℚ) :=
  if m.any (fun e => e.1 == key) then
    m.map (fun e => if e.1 == key then (key, value) else e)
  else
    m ++ [(key, value)]

/-- ValidateCondition checks if a property meets the criteria for its claimed
condition. -/
def ValidateCondition (property : Property) (condition : PropertyCondition) :
    ValidationResult :=
  let issues : List ValidationIssue := []
  let adjustments : List (String × ℚ) := []
  let totalScore : ℚ := 1
  let year := validateYearBuilt property condition issues
  let adjustments := mapSet adjustments "age" year.2
  let totalScore := totalScore * year.2
  let req := validateRequiredFeatures property condition year.1
  let adjustments := mapSet adjustments "features" req.2
  let totalScore := totalScore * req.2
  let exc := validateExcludedFeatures property condition req.1
  let adjustments := mapSet adjustments "excluded_features" exc.2
  let totalScore := totalScore * exc.2
  let mnt := validateMaintenance property condition exc.1
  let adjustments := mapSet adjustments "maintenance" mnt.2
  let totalScore := totalScore * mnt.2
  let ren := validateRenovation property condition mnt.1
  let adjustments := mapSet adjustments "renovation" ren.2
  let totalScore := totalScore * ren.2
  { IsValid := ren.1.length == 0
    Issues := ren.1
    TotalScore := totalScore
    Adjustments := adjustments }

/-- The required features of the condition that the property lacks, in the order
of `condition.RequiredFeatures`. -/
def missingRequired (property : Property) (condition : PropertyCondition) : List String :=
  condition.RequiredFeatures.filter (fun required => ! featureFound required property.Features)

/-- The number of pairs (excluded feature, property feature) that match: the
number of rounds of the excluded-feature check that log an issue. -/
def excludedHits (property : Property) (condition : PropertyCondition) : Nat :=
  (condition.ExcludedFeatures.map (fun excluded => property.Features.count excluded)).sum

/-! ## Package `valuation`: the valuation calculator -/

/-- What the Go runtime and the `fmt` package decide during one call of
`CalculateValuation`: how a float is rendered under the verb `%.Nf`
(`fmtFloat N x`), and in which order the one `range` over a map of that call visits
the entries, every entry exactly once.  The runtime chooses the order afresh at
every `range`: two calls are described by two environments, which may differ. -/
structure GoEnv where
  fmtFloat : Nat → ℚ → String
  rangeOrder : List (String × ℚ) → List (String × ℚ)
  rangeOrder_perm : ∀ m, (rangeOrder m).Perm m

/-- The decimal rendering of a rational with `prec` digits after the point,
correctly rounded (half to even). -/
def fmtFixed (prec : Nat) (x : ℚ) : String :=
  let scaled : ℚ := |x| * (10 : ℚ) ^ prec
  let lower : Nat := scaled.floor.toNat
  let rest : ℚ := scaled - lower
  let n : Nat := if rest > 1 / 2 ∨ (rest = 1 / 2 ∧ lower % 2 = 1) then lower + 1 else lower
  let digits := toString (n % 10 ^ prec)
  (if x < 0 then "-" else "") ++ toString (n / 10 ^ prec)
    ++ (if prec = 0 then ""
        else "." ++ String.mk (List.replicate (prec - digits.length) (Char.ofNat 48)) ++ digits)

/-- The verb `%.Nf` of the `fmt` package: the `float64` nearest to the value,
rendered with `prec` digits after the point, correctly rounded. -/
def fmtFloat64 (prec : Nat) (x : ℚ) : String :=
  fmtFixed prec (roundF64 x)

/-- The environment in which `range` visits a map in insertion order. -/
def envInsertionOrder : GoEnv where
  fmtFloat := fmtFloat64
  rangeOrder := fun m => m
  rangeOrder_perm := fun m => List.Perm.refl m

/-- The environment in which `range` visits a map in reverse insertion order. -/
def envReverseOrder : GoEnv where
  fmtFloat := fmtFloat64
  rangeOrder := fun m => m.reverse
  rangeOrder_perm := fun m => List.reverse_perm m

/-- One round of the loop "Add value for features". -/
def featureValueStep (featureValue : ℚ) (feature : String) : ℚ :=
  match FeatureValue.lookup feature with
  | some value => featureValue + value
  | none => featureValue

/-- The age depreciation `math.Max(0.7, 1.0-(float64(age)*0.005))`. -/
def ageDepreciation (age : Int) : ℚ :=
  max (7 / 10) (1 - (age : ℚ) * (5 / 1000))

/-- The line of the explanation written for one issue. -/
def issueLine (env : GoEnv) (issue : ValidationIssue) : String :=
  "  ! [" ++ issue.Category ++ "] " ++ issue.Description ++ " (Severity: "
    ++ env.fmtFloat 1 issue.Severity ++ ")\n"

/-- The line of the explanation written for one entry of the adjustments map. -/
def adjustmentLine (env : GoEnv) (entry : String × ℚ) : String :=
  "  * " ++ entry.1 ++ ": " ++ env.fmtFloat 2 entry.2 ++ "\n"

/-- The base price `CalculateValuation` uses: the entry of the property type in
`BasePricePerSquareFoot`, and the entry of "apartment" when there is none. -/
def basePriceFor (property : Property) : ℚ :=
  match BasePricePerSquareFoot.lookup property.PropertyType with
  | some price => price
  | none => (BasePricePerSquareFoot.lookup "apartment").getD 0

/-- The criteria `CalculateValuation` uses: the entry of the condition in
`ConditionCriteria`, and the entry of "good" when there is none. -/
def conditionFor (Y : Int) (property : Property) : PropertyCondition :=
  match (ConditionCriteria Y).lookup property.Condition with
  | some c => c
  | none => ((ConditionCriteria Y).lookup "good").getD ⟨0, [], "", 0, 0, [], [], "", ""⟩

/-- CalculateValuation performs the property valuation based on various factors;
it returns the value, the confidence and the explanation. -/
def CalculateValuation (Y : Int) (env : GoEnv) (property : Property) : ℚ × ℚ × String :=
  let basePrice : ℚ := basePriceFor property
  let baseValue : ℚ := (property.SquareFootage : ℚ) * basePrice
  let condition : PropertyCondition := conditionFor Y property
  let validationResult := ValidateCondition property condition
  let adjustedMultiplier := condition.Multiplier * validationResult.TotalScore
  let baseValue := baseValue * adjustedMultiplier
  let featureValue : ℚ := property.Features.foldl featureValueStep 0
  let baseValue := baseValue + featureValue
  let currentYear := Y
  let age := currentYear - property.YearBuilt
  let ageDepreciation := ageDepreciation age
  let baseValue := baseValue * ageDepreciation
  let bedroomValue : ℚ := (property.Bedrooms : ℚ) * 25000
  let bathroomValue : ℚ := (property.Bathrooms : ℚ) * 15000
  let baseValue := baseValue + (bedroomValue + bathroomValue)
  let confidence : ℚ := 85 / 100
  let confidence := if property.Features.length > 0 then confidence + 5 / 100 else confidence
  let confidence := if property.Condition ≠ "" then confidence + 5 / 100 else confidence
  let confidence := if validationResult.IsValid then confidence + 5 / 100 else confidence
  let confidence := min (95 / 100) confidence
  let explanation := "Valuation based on:\n"
  let explanation := explanation ++ ("- Base value: $" ++ env.fmtFloat 2 basePrice
    ++ " per sq ft for " ++ property.PropertyType ++ " property\n")
  let explanation := explanation ++ ("- Condition: " ++ condition.Description
    ++ " (base multiplier: " ++ env.fmtFloat 2 condition.Multiplier ++ ")\n")
  let explanation :=
    if ¬ validationResult.IsValid then
      let explanation := explanation ++ "\nCondition validation issues:\n"
      let explanation :=
        validationResult.Issues.foldl (fun acc issue => acc ++ issueLine env issue) explanation
      let explanation := explanation ++ "\nAdjustment factors applied:\n"
      let explanation :=
        (env.rangeOrder validationResult.Adjustments).foldl
          (fun acc entry => acc ++ adjustmentLine env entry) explanation
      explanation ++ ("  Final multiplier: " ++ env.fmtFloat 2 adjustedMultiplier ++ "\n")
    else explanation
  let explanation := explanation
    ++ ("- Feature additions: $" ++ env.fmtFloat 2 featureValue ++ "\n")
  let explanation := explanation
    ++ ("- Age-based depreciation: " ++ env.fmtFloat 2 ageDepreciation ++ "\n")
  let explanation := explanation ++ ("- Bedroom value: $" ++ env.fmtFloat 2 bedroomValue ++ "\n")
  let explanation := explanation
    ++ ("- Bathroom value: $" ++ env.fmtFloat 2 bathroomValue ++ "\n")
  (baseValue, confidence, explanation)

/-- The sum of `FeatureValue[f]` over the entries `f` of a feature list that are
keys of `FeatureValue` (an entry that occurs twice counts twice). -/
def featureSum (features : List String) : ℚ :=
  (features.filterMap (fun f => FeatureValue.lookup f)).sum

end valuation

/-! ## Package `validation` -/

namespace validation

open valuation errors

def validMaintenanceLevels : List (String × Bool) :=
  [ ("excellent", true), ("very_good", true), ("good", true), ("fair", true),
    ("poor", true), ("very_poor", true) ]

def validRenovationStatuses : List (String × Bool) :=
  [ ("recent", true), ("standard", true), ("needs_updates", true),
    ("needs_repairs", true), ("needs_renovation", true) ]

/-- ValidateProperty validates the fields of a property; `none` is the nil error. -/
def ValidateProperty (Y : Int) (property : Property) : Option ValidationError :=
  if (BasePricePerSquareFoot.lookup property.PropertyType).isNone then
    some ⟨"property_type", ErrInvalidPropertyType⟩
  else if ((ConditionCriteria Y).lookup property.Condition).isNone then
    some ⟨"condition", ErrInvalidCondition⟩
  else if ! (validMaintenanceLevels.lookup property.MaintenanceLevel).getD false then
    some ⟨"maintenance_level", ErrInvalidMaintenanceLevel⟩
  else if ! (validRenovationStatuses.lookup property.RenovationStatus).getD false then
    some ⟨"renovation_status", ErrInvalidRenovationStatus⟩
  else
    let currentYear := Y
    if property.YearBuilt < 1800 ∨ property.YearBuilt > currentYear then
      some ⟨"year_built", ErrInvalidYearBuilt⟩
    else if property.SquareFootage ≤ 0 ∨ property.SquareFootage > 100000 then
      some ⟨"square_footage", ErrInvalidSquareFootage⟩
    else if property.Bedrooms ≤ 0 ∨ property.Bedrooms > 20 then
      some ⟨"bedrooms", ErrInvalidBedrooms⟩
    else if property.Bathrooms ≤ 0 ∨ property.Bathrooms > 20 then
      some ⟨"bathrooms", ErrInvalidBathrooms⟩
    else
      none

/-- Rule 1 of the validator: the property type is a key of the price table. -/
abbrev propertyTypeOk (p : Property) : Prop :=
  p.PropertyType ∈ BasePricePerSquareFoot.map Prod.fst

/-- Rule 2 of the validator: the condition is a key of the criteria table. -/
abbrev conditionOk (Y : Int) (p : Property) : Prop :=
  p.Condition ∈ (ConditionCriteria Y).map Prod.fst

/-- Rule 3 of the validator: the maintenance level is one of the six levels. -/
abbrev maintenanceLevelOk (p : Property) : Prop :=
  p.MaintenanceLevel ∈ ["excellent", "very_good", "good", "fair", "poor", "very_poor"]

/-- Rule 4 of the validator: the renovation status is one of the five statuses. -/
abbrev renovationStatusOk (p : Property) : Prop :=
  p.RenovationStatus ∈
    ["recent", "standard", "needs_updates", "needs_repairs", "needs_renovation"]

/-- Rule 5 of the validator: the year built lies between 1800 and the current year. -/
abbrev yearBuiltOk (Y : Int) (p : Property) : Prop :=
  1800 ≤ p.YearBuilt ∧ p.YearBuilt ≤ Y

/-- Rule 6 of the validator: the square footage is positive and at most 100000. -/
abbrev squareFootageOk (p : Property) : Prop :=
  0 < p.SquareFootage ∧ p.SquareFootage ≤ 100000

/-- Rule 7 of the validator: there are between 1 and 20 bedrooms. -/
abbrev bedroomsOk (p : Property) : Prop :=
  0 < p.Bedrooms ∧ p.Bedrooms ≤ 20

/-- Rule 8 of the validator: there are between 1 and 20 bathrooms. -/
abbrev bathroomsOk (p : Property) : Prop :=
  0 < p.Bathrooms ∧ p.Bathrooms ≤ 20

end validation

/-! ## Package `testutil` -/

namespace testutil

open valuation

/-- CreateTestProperty creates a valid test property. -/
def CreateTestProperty (Y : Int) : Property where
  Address := "123 Test St"
  PropertyType := "house"
  Bedrooms := 3
  Bathrooms := 2
  SquareFootage := 2000
  YearBuilt := Y - 5
  Condition := "good"
  MaintenanceLevel := "good"
  RenovationStatus := "standard"
  Features := ["garage", "garden"]
  Location := ⟨0, 0⟩

/-- The fields the eight invalid test properties share; each entry of
`CreateInvalidProperties` changes one of them. -/
def invalidBase (Y : Int) : Property where
  Address := "123 Test St"
  PropertyType := "house"
  Bedrooms := 3
  Bathrooms := 2
  SquareFootage := 2000
  YearBuilt := Y - 5
  Condition := "good"
  MaintenanceLevel := "good"
  RenovationStatus := "standard"
  Features := []
  Location := ⟨0, 0⟩

/-- CreateInvalidProperties creates a map of invalid properties for testing. -/
def CreateInvalidProperties (Y : Int) : List (String × Property) :=
  let currentYear := Y
  [ ("invalid_property_type", { invalidBase currentYear with PropertyType := "invalid_type" }),
    ("invalid_condition", { invalidBase currentYear with Condition := "invalid_condition" }),
    ("invalid_maintenance", { invalidBase currentYear with MaintenanceLevel := "invalid_level" }),
    ("invalid_renovation", { invalidBase currentYear with RenovationStatus := "invalid_status" }),
    ("invalid_year", { invalidBase currentYear with YearBuilt := 1700 }),
    ("invalid_square_footage", { invalidBase currentYear with SquareFootage := 200000 }),
    ("invalid_bedrooms", { invalidBase currentYear with Bedrooms := 30 }),
    ("invalid_bathrooms", { invalidBase currentYear with Bathrooms := 30 }) ]

end testutil

/-! ## The RPC handler of `cmd/server.go` -/

namespace server

/-- The message `pb.Property` as the handler reads it (its 32-bit integer fields
are integers). -/
structure PbProperty where
  Address : String
  PropertyType : String
  Bedrooms : Int
  Bathrooms : Int
  SquareFootage : Int
  YearBuilt : Int
  Condition : String
  MaintenanceLevel : String
  RenovationStatus : String
  Features : List String
  deriving DecidableEq, Repr

structure ValuationRequest where
  Property : PbProperty
  deriving DecidableEq, Repr

structure ValuationResult where
  Value : ℚ
  Confidence : ℚ
  Explanation : String
  Issues : List String
  deriving DecidableEq, Repr

structure ValuationResponse where
  Result : ValuationResult
  deriving DecidableEq, Repr

/-- The property the handler builds from the request; `Location` keeps its zero
value. -/
def toProperty (req : ValuationRequest) : valuation.Property where
  Address := req.Property.Address
  PropertyType := req.Property.PropertyType
  Bedrooms := req.Property.Bedrooms
  Bathrooms := req.Property.Bathrooms
  SquareFootage := req.Property.SquareFootage
  YearBuilt := req.Property.YearBuilt
  Condition := req.Property.Condition
  MaintenanceLevel := req.Property.MaintenanceLevel
  RenovationStatus := req.Property.RenovationStatus
  Features := req.Property.Features
  Location := ⟨0, 0⟩

/-- The method `(*server).CalculateValuation`: the Go pair (response, error) is
`Except.ok response` when the error is nil and `Except.error status` otherwise. -/
def CalculateValuation (Y : Int) (env : valuation.GoEnv) (req : ValuationRequest) :
    Except errors.Status ValuationResponse :=
  let property := toProperty req
  let r := valuation.CalculateValuation Y env property
  Except.ok
    { Result :=
        { Value := r.1
          Confidence := r.2.1
          Explanation := r.2.2
          Issues := [] } }

/-- The request the integration test sends for a property. -/
def requestOf (p : valuation.Property) : ValuationRequest where
  Property :=
    { Address := p.Address
      PropertyType := p.PropertyType
      Bedrooms := p.Bedrooms
      Bathrooms := p.Bathrooms
      SquareFootage := p.SquareFootage
      YearBuilt := p.YearBuilt
      Condition := p.Condition
      MaintenanceLevel := p.MaintenanceLevel
      RenovationStatus := p.RenovationStatus
      Features := p.Features }

end server

/-! ## Reading the issue list -/

namespace valuation

/-- The issues the excluded-feature check logs, in the order it logs them: for
each excluded feature in turn, one issue per entry of the property features equal
to it. -/
def excludedIssues (property : Property) (condition : PropertyCondition) :
    List ValidationIssue :=
  condition.ExcludedFeatures.flatMap
    (fun excluded => List.replicate (property.Features.count excluded)
      (excludedFeatureIssue excluded))

/-- The number of issues of a list that have the given category and severity. -/
def countIssues (category : String) (severity : ℚ) (issues : List ValidationIssue) : Nat :=
  issues.countP (fun i => decide (i.Category = category ∧ i.Severity = severity))

/-- The issues of a list that have the given category. -/
def issuesOf (category : String) (issues : List ValidationIssue) : List ValidationIssue :=
  issues.filter (fun i => decide (i.Category = category))

end valuation

/-! ## Lookup in the literal maps -/

section Lookup

variable {β : Type}

theorem lookup_isNone_iff (k : String) (l : List (String × β)) :
    (l.lookup k).isNone = true ↔ k ∉ l.map Prod.fst := by
  induction l with
  | nil => simp
  | cons e l ih =>
    obtain ⟨a, b⟩ := e
    by_cases h : k = a
    · subst h
      simp [List.lookup]
    · have hb : (k == a) = false := by simpa using h
      simp [List.lookup, hb, h, ih]

theorem lookup_eq_none_iff (k : String) (l : List (String × β)) :
    l.lookup k = none ↔ k ∉ l.map Prod.fst := by
  rw [← lookup_isNone_iff, Option.isNone_iff_eq_none]

theorem lookup_mem (k : String) (l : List (String × β)) (v : β)
    (h : l.lookup k = some v) : (k, v) ∈ l := by
  induction l with
  | nil => simp at h
  | cons e l ih =>
    obtain ⟨a, b⟩ := e
    by_cases hk : k = a
    · subst hk
      simp [List.lookup] at h
      simp [h]
    · have hb : (k == a) = false := by simpa using hk
      simp only [List.lookup, hb] at h
      exact List.mem_cons_of_mem _ (ih h)

end Lookup

namespace validation

open valuation errors

theorem maintenance_lookup_iff (s : String) :
    (validMaintenanceLevels.lookup s).getD false = true ↔
      s ∈ ["excellent", "very_good", "good", "fair", "poor", "very_poor"] := by
  constructor
  · intro h
    cases hl : validMaintenanceLevels.lookup s with
    | none => simp [hl] at h
    | some v =>
      have := lookup_mem s _ v hl
      simp [validMaintenanceLevels] at this
      simp
      tauto
  · intro h
    simp at h
    rcases h with h | h | h | h | h | h <;> subst h <;> decide

theorem renovation_lookup_iff (s : String) :
    (validRenovationStatuses.lookup s).getD false = true ↔
      s ∈ ["recent", "standard", "needs_updates", "needs_repairs", "needs_renovation"] := by
  constructor
  · intro h
    cases hl : validRenovationStatuses.lookup s with
    | none => simp [hl] at h
    | some v =>
      have := lookup_mem s _ v hl
      simp [validRenovationStatuses] at this
      simp
      tauto
  · intro h
    simp at h
    rcases h with h | h | h | h | h <;> subst h <;> decide

end validation

namespace validation

open valuation errors testutil

/-- The validator as a cascade over the eight rules, in the order of the source. -/
theorem ValidateProperty_cascade (Y : Int) (p : Property) :
    ValidateProperty Y p =
      if ¬ propertyTypeOk p then some ⟨"property_type", "invalid property type"⟩
      else if ¬ conditionOk Y p then some ⟨"condition", "invalid condition"⟩
      else if ¬ maintenanceLevelOk p then
        some ⟨"maintenance_level", "invalid maintenance level"⟩
      else if ¬ renovationStatusOk p then
        some ⟨"renovation_status", "invalid renovation status"⟩
      else if ¬ yearBuiltOk Y p then some ⟨"year_built", "invalid year built"⟩
      else if ¬ squareFootageOk p then some ⟨"square_footage", "invalid square footage"⟩
      else if ¬ bedroomsOk p then some ⟨"bedrooms", "invalid number of bedrooms"⟩
      else if ¬ bathroomsOk p then some ⟨"bathrooms", "invalid number of bathrooms"⟩
      else none := by
  have h1 : (BasePricePerSquareFoot.lookup p.PropertyType).isNone = true ↔ ¬ propertyTypeOk p :=
    lookup_isNone_iff _ _
  have h2 : ((ConditionCriteria Y).lookup p.Condition).isNone = true ↔ ¬ conditionOk Y p :=
    lookup_isNone_iff _ _
  have h3 : (! (validMaintenanceLevels.lookup p.MaintenanceLevel).getD false) = true ↔
      ¬ maintenanceLevelOk p := by
    unfold maintenanceLevelOk
    rw [← maintenance_lookup_iff]; simp
  have h4 : (! (validRenovationStatuses.lookup p.RenovationStatus).getD false) = true ↔
      ¬ renovationStatusOk p := by
    unfold renovationStatusOk
    rw [← renovation_lookup_iff]; simp
  have h5 : (p.YearBuilt < 1800 ∨ p.YearBuilt > Y) ↔ ¬ yearBuiltOk Y p := by
    unfold yearBuiltOk; omega
  have h6 : (p.SquareFootage ≤ 0 ∨ p.SquareFootage > 100000) ↔ ¬ squareFootageOk p := by
    unfold squareFootageOk; omega
  have h7 : (p.Bedrooms ≤ 0 ∨ p.Bedrooms > 20) ↔ ¬ bedroomsOk p := by
    unfold bedroomsOk; omega
  have h8 : (p.Bathrooms ≤ 0 ∨ p.Bathrooms > 20) ↔ ¬ bathroomsOk p := by
    unfold bathroomsOk; omega
  unfold ValidateProperty
  simp only [h1, h2, h3, h4, h5, h6, h7, h8, ErrInvalidPropertyType, ErrInvalidCondition,
    ErrInvalidMaintenanceLevel, ErrInvalidRenovationStatus, ErrInvalidYearBuilt,
    ErrInvalidSquareFootage, ErrInvalidBedrooms, ErrInvalidBathrooms]

/-- The validator accepts exactly the properties that satisfy the eight rules. -/
theorem ValidateProperty_eq_none_iff (Y : Int) (p : Property) :
    ValidateProperty Y p = none ↔
      (propertyTypeOk p ∧ conditionOk Y p ∧ maintenanceLevelOk p ∧ renovationStatusOk p
        ∧ (1800 ≤ p.YearBuilt ∧ p.YearBuilt ≤ Y)
        ∧ (0 < p.SquareFootage ∧ p.SquareFootage ≤ 100000)
        ∧ (0 < p.Bedrooms ∧ p.Bedrooms ≤ 20)
        ∧ (0 < p.Bathrooms ∧ p.Bathrooms ≤ 20)) := by
  rw [ValidateProperty_cascade]
  constructor
  · intro h
    split_ifs at h with a1 a2 a3 a4 a5 a6 a7 a8
    exact ⟨a1, a2, a3, a4, a5, a6, a7, a8⟩
  · rintro ⟨a1, a2, a3, a4, a5, a6, a7, a8⟩
    rw [if_neg (not_not.mpr a1), if_neg (not_not.mpr a2), if_neg (not_not.mpr a3),
      if_neg (not_not.mpr a4), if_neg (not_not.mpr a5), if_neg (not_not.mpr a6),
      if_neg (not_not.mpr a7), if_neg (not_not.mpr a8)]

/-- C1. With the current year fixed as Y, ValidateProperty returns no error exactly
when the eight rules hold (known property type, known condition, one of the six
maintenance levels, one of the five renovation statuses, 1800 <= year built <= Y,
0 < square footage <= 100000, 0 < bedrooms <= 20, 0 < bathrooms <= 20); the
boundary values 1800, Y, 100000 and 20 are accepted, and so is the property built by
CreateTestProperty once Y - 5 is no earlier than 1800. -/
theorem C1_ValidateProperty_accepts_iff_rules (Y : Int) :
    (∀ p : Property, ValidateProperty Y p = none ↔
      (propertyTypeOk p ∧ conditionOk Y p ∧ maintenanceLevelOk p ∧ renovationStatusOk p
        ∧ (1800 ≤ p.YearBuilt ∧ p.YearBuilt ≤ Y)
        ∧ (0 < p.SquareFootage ∧ p.SquareFootage ≤ 100000)
        ∧ (0 < p.Bedrooms ∧ p.Bedrooms ≤ 20)
        ∧ (0 < p.Bathrooms ∧ p.Bathrooms ≤ 20)))
    ∧ (1800 ≤ Y →
        ValidateProperty Y { CreateTestProperty Y with
          YearBuilt := 1800, SquareFootage := 100000, Bedrooms := 20, Bathrooms := 20 } = none
        ∧ ValidateProperty Y { CreateTestProperty Y with YearBuilt := Y } = none)
    ∧ (1805 ≤ Y → ValidateProperty Y (CreateTestProperty Y) = none) := by
  have key := ValidateProperty_eq_none_iff Y
  have enums : ∀ q : Property, q.PropertyType = "house" → q.Condition = "good" →
      q.MaintenanceLevel = "good" → q.RenovationStatus = "standard" →
      propertyTypeOk q ∧ conditionOk Y q ∧ maintenanceLevelOk q ∧ renovationStatusOk q := by
    intro q h1 h2 h3 h4
    simp [propertyTypeOk, conditionOk, maintenanceLevelOk, renovationStatusOk, h1, h2, h3, h4,
      BasePricePerSquareFoot, ConditionCriteria]
  refine ⟨key, ?_, ?_⟩
  · intro hY
    constructor
    · rw [key]
      obtain ⟨e1, e2, e3, e4⟩ := enums { CreateTestProperty Y with
        YearBuilt := 1800, SquareFootage := 100000, Bedrooms := 20, Bathrooms := 20 }
        rfl rfl rfl rfl
      exact ⟨e1, e2, e3, e4, ⟨le_refl _, hY⟩, by simp [CreateTestProperty],
        by simp [CreateTestProperty], by simp [CreateTestProperty]⟩
    · rw [key]
      obtain ⟨e1, e2, e3, e4⟩ := enums { CreateTestProperty Y with YearBuilt := Y }
        rfl rfl rfl rfl
      exact ⟨e1, e2, e3, e4, ⟨hY, le_refl _⟩, by simp [CreateTestProperty],
        by simp [CreateTestProperty], by simp [CreateTestProperty]⟩
  · intro hY
    rw [key]
    obtain ⟨e1, e2, e3, e4⟩ := enums (CreateTestProperty Y) rfl rfl rfl rfl
    refine ⟨e1, e2, e3, e4, ⟨?_, ?_⟩, by simp [CreateTestProperty],
        by simp [CreateTestProperty], by simp [CreateTestProperty]⟩
    · show (1800 : Int) ≤ Y - 5
      omega
    · show Y - 5 ≤ Y
      omega

/-- Witness for C1 in the year 2026. -/
theorem C1_witness :
    (ValidateProperty 2026 { CreateTestProperty 2026 with
          YearBuilt := 1800, SquareFootage := 100000, Bedrooms := 20, Bathrooms := 20 } = none
        ∧ ValidateProperty 2026 { CreateTestProperty 2026 with YearBuilt := 2026 } = none)
      ∧ ValidateProperty 2026 (CreateTestProperty 2026) = none :=
  ⟨(C1_ValidateProperty_accepts_iff_rules 2026).2.1 (by decide),
    (C1_ValidateProperty_accepts_iff_rules 2026).2.2 (by decide)⟩

end validation

namespace validation

open valuation errors testutil

/-- C2. With the current year fixed, a property violating a rule is rejected with
one ValidationError whose Field names the first violated rule in the order
property_type, condition, maintenance_level, renovation_status, year_built,
square_footage, bedrooms, bathrooms, whatever later rules are violated too, and
whose Message is the fixed text of that field; each of the eight properties of
CreateInvalidProperties is rejected with the field its key names (once Y - 5 is no
earlier than 1800, so that each violates a single rule). -/
theorem C2_ValidateProperty_reports_first_violation (Y : Int) :
    (∀ p : Property, ¬ propertyTypeOk p →
      ValidateProperty Y p = some ⟨"property_type", "invalid property type"⟩)
    ∧ (∀ p : Property, propertyTypeOk p → ¬ conditionOk Y p →
      ValidateProperty Y p = some ⟨"condition", "invalid condition"⟩)
    ∧ (∀ p : Property, propertyTypeOk p → conditionOk Y p → ¬ maintenanceLevelOk p →
      ValidateProperty Y p = some ⟨"maintenance_level", "invalid maintenance level"⟩)
    ∧ (∀ p : Property, propertyTypeOk p → conditionOk Y p → maintenanceLevelOk p →
      ¬ renovationStatusOk p →
      ValidateProperty Y p = some ⟨"renovation_status", "invalid renovation status"⟩)
    ∧ (∀ p : Property, propertyTypeOk p → conditionOk Y p → maintenanceLevelOk p →
      renovationStatusOk p → ¬ (1800 ≤ p.YearBuilt ∧ p.YearBuilt ≤ Y) →
      ValidateProperty Y p = some ⟨"year_built", "invalid year built"⟩)
    ∧ (∀ p : Property, propertyTypeOk p → conditionOk Y p → maintenanceLevelOk p →
      renovationStatusOk p → (1800 ≤ p.YearBuilt ∧ p.YearBuilt ≤ Y) →
      ¬ (0 < p.SquareFootage ∧ p.SquareFootage ≤ 100000) →
      ValidateProperty Y p = some ⟨"square_footage", "invalid square footage"⟩)
    ∧ (∀ p : Property, propertyTypeOk p → conditionOk Y p → maintenanceLevelOk p →
      renovationStatusOk p → (1800 ≤ p.YearBuilt ∧ p.YearBuilt ≤ Y) →
      (0 < p.SquareFootage ∧ p.SquareFootage ≤ 100000) →
      ¬ (0 < p.Bedrooms ∧ p.Bedrooms ≤ 20) →
      ValidateProperty Y p = some ⟨"bedrooms", "invalid number of bedrooms"⟩)
    ∧ (∀ p : Property, propertyTypeOk p → conditionOk Y p → maintenanceLevelOk p →
      renovationStatusOk p → (1800 ≤ p.YearBuilt ∧ p.YearBuilt ≤ Y) →
      (0 < p.SquareFootage ∧ p.SquareFootage ≤ 100000) →
      (0 < p.Bedrooms ∧ p.Bedrooms ≤ 20) → ¬ (0 < p.Bathrooms ∧ p.Bathrooms ≤ 20) →
      ValidateProperty Y p = some ⟨"bathrooms", "invalid number of bathrooms"⟩)
    ∧ (1805 ≤ Y →
      (CreateInvalidProperties Y).map (fun e => (e.1, ValidateProperty Y e.2)) =
        [ ("invalid_property_type", some ⟨"property_type", "invalid property type"⟩),
          ("invalid_condition", some ⟨"condition", "invalid condition"⟩),
          ("invalid_maintenance", some ⟨"maintenance_level", "invalid maintenance level"⟩),
          ("invalid_renovation", some ⟨"renovation_status", "invalid renovation status"⟩),
          ("invalid_year", some ⟨"year_built", "invalid year built"⟩),
          ("invalid_square_footage", some ⟨"square_footage", "invalid square footage"⟩),
          ("invalid_bedrooms", some ⟨"bedrooms", "invalid number of bedrooms"⟩),
          ("invalid_bathrooms", some ⟨"bathrooms", "invalid number of bathrooms"⟩) ]) := by
  refine ⟨?_, ?_, ?_, ?_, ?_, ?_, ?_, ?_, ?_⟩
  · intro p a1
    rw [ValidateProperty_cascade, if_pos a1]
  · intro p a1 a2
    rw [ValidateProperty_cascade, if_neg (not_not.mpr a1), if_pos a2]
  · intro p a1 a2 a3
    rw [ValidateProperty_cascade, if_neg (not_not.mpr a1), if_neg (not_not.mpr a2), if_pos a3]
  · intro p a1 a2 a3 a4
    rw [ValidateProperty_cascade, if_neg (not_not.mpr a1), if_neg (not_not.mpr a2),
      if_neg (not_not.mpr a3), if_pos a4]
  · intro p a1 a2 a3 a4 a5
    rw [ValidateProperty_cascade, if_neg (not_not.mpr a1), if_neg (not_not.mpr a2),
      if_neg (not_not.mpr a3), if_neg (not_not.mpr a4), if_pos a5]
  · intro p a1 a2 a3 a4 a5 a6
    rw [ValidateProperty_cascade, if_neg (not_not.mpr a1), if_neg (not_not.mpr a2),
      if_neg (not_not.mpr a3), if_neg (not_not.mpr a4), if_neg (not_not.mpr a5), if_pos a6]
  · intro p a1 a2 a3 a4 a5 a6 a7
    rw [ValidateProperty_cascade, if_neg (not_not.mpr a1), if_neg (not_not.mpr a2),
      if_neg (not_not.mpr a3), if_neg (not_not.mpr a4), if_neg (not_not.mpr a5),
      if_neg (not_not.mpr a6), if_pos a7]
  · intro p a1 a2 a3 a4 a5 a6 a7 a8
    rw [ValidateProperty_cascade, if_neg (not_not.mpr a1), if_neg (not_not.mpr a2),
      if_neg (not_not.mpr a3), if_neg (not_not.mpr a4), if_neg (not_not.mpr a5),
      if_neg (not_not.mpr a6), if_neg (not_not.mpr a7), if_pos a8]
  · intro hY
    have h1 : (1800 : Int) ≤ Y - 5 := by omega
    have h2 : Y - 5 ≤ Y := by omega
    have h3 : ¬ ((1800 : Int) ≤ 1700) := by decide
    simp [CreateInvalidProperties, invalidBase, ValidateProperty_cascade, propertyTypeOk,
      conditionOk, maintenanceLevelOk, renovationStatusOk, yearBuiltOk, squareFootageOk,
      bedroomsOk, bathroomsOk, BasePricePerSquareFoot, ConditionCriteria, h1, h2]

/-- Witness for C2 in the year 2026: a property with an unknown type and thirty
bedrooms is reported for its type, and the eight invalid test properties are
reported for the field their key names. -/
theorem C2_witness :
    ValidateProperty 2026
        { invalidBase 2026 with PropertyType := "castle", Bedrooms := 30 }
      = some ⟨"property_type", "invalid property type"⟩
    ∧ (CreateInvalidProperties 2026).map (fun e => (e.1, ValidateProperty 2026 e.2)) =
        [ ("invalid_property_type", some ⟨"property_type", "invalid property type"⟩),
          ("invalid_condition", some ⟨"condition", "invalid condition"⟩),
          ("invalid_maintenance", some ⟨"maintenance_level", "invalid maintenance level"⟩),
          ("invalid_renovation", some ⟨"renovation_status", "invalid renovation status"⟩),
          ("invalid_year", some ⟨"year_built", "invalid year built"⟩),
          ("invalid_square_footage", some ⟨"square_footage", "invalid square footage"⟩),
          ("invalid_bedrooms", some ⟨"bedrooms", "invalid number of bedrooms"⟩),
          ("invalid_bathrooms", some ⟨"bathrooms", "invalid number of bathrooms"⟩) ] :=
  ⟨(C2_ValidateProperty_reports_first_violation 2026).1 _ (by decide),
    (C2_ValidateProperty_reports_first_violation 2026).2.2.2.2.2.2.2.2 (by decide)⟩

end validation

/-! ## The condition scorer, block by block -/

namespace valuation

theorem featureFound_iff (required : String) (features : List String) :
    featureFound required features = true ↔ required ∈ features := by
  induction features with
  | nil => simp [featureFound]
  | cons f fs ih =>
    by_cases h : f = required
    · simp [featureFound, h]
    · have h2 : ¬ required = f := fun e => h e.symm
      simp [featureFound, h, h2, ih]

theorem foldl_requiredFeatureStep (property : Property) (reqs : List String)
    (issues : List ValidationIssue) (n : Nat) :
    reqs.foldl (requiredFeatureStep property) (issues, n) =
      (issues ++ (reqs.filter
          (fun required => ! featureFound required property.Features)).map missingFeatureIssue,
        n + (reqs.filter
          (fun required => ! featureFound required property.Features)).length) := by
  induction reqs generalizing issues n with
  | nil => simp
  | cons r rs ih =>
    by_cases h : featureFound r property.Features = true
    · simp [List.foldl, requiredFeatureStep, h, ih]
    · simp only [Bool.not_eq_true] at h
      simp [List.foldl, requiredFeatureStep, h, ih]
      omega

theorem validateRequiredFeatures_eq (property : Property) (condition : PropertyCondition)
    (issues : List ValidationIssue) :
    validateRequiredFeatures property condition issues =
      (issues ++ (missingRequired property condition).map missingFeatureIssue,
        1 - ((missingRequired property condition).length : ℚ) * (2 / 10)) := by
  unfold validateRequiredFeatures missingRequired
  rw [foldl_requiredFeatureStep]
  by_cases h : (condition.RequiredFeatures.filter
      (fun required => ! featureFound required property.Features)).length = 0
  · simp [h]
  · have : 0 < (condition.RequiredFeatures.filter
        (fun required => ! featureFound required property.Features)).length := by omega
    simp [this]

theorem foldl_excludedFeatureInner (excluded : String) (features : List String)
    (issues : List ValidationIssue) (s : ℚ) :
    features.foldl (excludedFeatureInner excluded) (issues, s) =
      (issues ++ List.replicate (features.count excluded) (excludedFeatureIssue excluded),
        s * (8 / 10) ^ features.count excluded) := by
  induction features generalizing issues s with
  | nil => simp
  | cons f fs ih =>
    by_cases h : f = excluded
    · subst h
      simp [List.foldl, excludedFeatureInner, ih, List.replicate_succ, pow_succ]
      ring
    · have hb : (f == excluded) = false := by simpa using h
      simp [List.foldl, excludedFeatureInner, h, ih, List.count_cons, hb]

theorem foldl_excludedFeatureStep_snd (property : Property) (excl : List String)
    (issues : List ValidationIssue) (s : ℚ) :
    (excl.foldl (excludedFeatureStep property) (issues, s)).2 =
      s * (8 / 10) ^ (excl.map (fun excluded => property.Features.count excluded)).sum := by
  induction excl generalizing issues s with
  | nil => simp
  | cons x xs ih =>
    simp only [List.foldl, excludedFeatureStep, foldl_excludedFeatureInner, ih, List.map_cons,
      List.sum_cons, pow_add]
    ring

theorem foldl_excludedFeatureStep_length (property : Property) (excl : List String)
    (issues : List ValidationIssue) (s : ℚ) :
    (excl.foldl (excludedFeatureStep property) (issues, s)).1.length =
      issues.length + (excl.map (fun excluded => property.Features.count excluded)).sum := by
  induction excl generalizing issues s with
  | nil => simp
  | cons x xs ih =>
    simp only [List.foldl, excludedFeatureStep, foldl_excludedFeatureInner, ih, List.map_cons,
      List.sum_cons, List.length_append, List.length_replicate]
    omega

theorem validateExcludedFeatures_snd (property : Property) (condition : PropertyCondition)
    (issues : List ValidationIssue) :
    (validateExcludedFeatures property condition issues).2 =
      (8 / 10) ^ excludedHits property condition := by
  unfold validateExcludedFeatures excludedHits
  rw [foldl_excludedFeatureStep_snd, one_mul]

theorem validateExcludedFeatures_length (property : Property) (condition : PropertyCondition)
    (issues : List ValidationIssue) :
    (validateExcludedFeatures property condition issues).1.length =
      issues.length + excludedHits property condition := by
  unfold validateExcludedFeatures excludedHits
  rw [foldl_excludedFeatureStep_length]

/-- The five sub-scores of `ValidateCondition`, read off the source blocks. -/
theorem ValidateCondition_TotalScore (property : Property) (condition : PropertyCondition) :
    (ValidateCondition property condition).TotalScore =
      (if property.YearBuilt < condition.MinYearBuilt
          ∨ property.YearBuilt > condition.MaxYearBuilt then 1 / 2 else 1)
      * (1 - ((missingRequired property condition).length : ℚ) * (2 / 10))
      * (8 / 10) ^ excludedHits property condition
      * (if property.MaintenanceLevel ≠ condition.MaintenanceLevel then 7 / 10 else 1)
      * (if property.RenovationStatus ≠ condition.RenovationStatus then 7 / 10 else 1) := by
  simp only [ValidateCondition, validateRequiredFeatures_eq, validateExcludedFeatures_snd,
    one_mul]
  congr 1
  · congr 1
    · congr 1
      · congr 1
        unfold validateYearBuilt
        split_ifs <;> rfl
    · unfold validateMaintenance
      split_ifs <;> rfl
  · unfold validateRenovation
    split_ifs <;> rfl

theorem ValidateCondition_IsValid (property : Property) (condition : PropertyCondition) :
    (ValidateCondition property condition).IsValid = true ↔
      (ValidateCondition property condition).Issues = [] := by
  simp [ValidateCondition, List.length_eq_zero]

end valuation

/-! ## The valuation calculator -/

namespace valuation

open testutil

theorem foldl_featureValueStep (features : List String) (acc : ℚ) :
    features.foldl featureValueStep acc = acc + featureSum features := by
  induction features generalizing acc with
  | nil => simp [featureSum]
  | cons f fs ih =>
    cases h : FeatureValue.lookup f with
    | none =>
      have : featureSum (f :: fs) = featureSum fs := by
        simp [featureSum, List.filterMap_cons, h]
      simp [List.foldl, featureValueStep, h, ih, this]
    | some v =>
      have : featureSum (f :: fs) = v + featureSum fs := by
        simp [featureSum, List.filterMap_cons, h]
      simp [List.foldl, featureValueStep, h, ih, this]
      ring

/-- The value returned by `CalculateValuation`, step by step as in the source. -/
theorem CalculateValuation_value (Y : Int) (env : GoEnv) (p : Property) :
    (CalculateValuation Y env p).1 =
      ((p.SquareFootage : ℚ) * basePriceFor p
          * ((conditionFor Y p).Multiplier * (ValidateCondition p (conditionFor Y p)).TotalScore)
        + featureSum p.Features) * ageDepreciation (Y - p.YearBuilt)
      + ((p.Bedrooms : ℚ) * 25000 + (p.Bathrooms : ℚ) * 15000) := by
  simp only [CalculateValuation, foldl_featureValueStep, zero_add]

/-- The confidence returned by `CalculateValuation`, as in the source. -/
theorem CalculateValuation_confidence (Y : Int) (env : GoEnv) (p : Property) :
    (CalculateValuation Y env p).2.1 =
      min (95 / 100)
        (if (ValidateCondition p (conditionFor Y p)).IsValid = true then
          (if p.Condition ≠ "" then
            (if p.Features.length > 0 then (85 / 100 : ℚ) + 5 / 100 else 85 / 100) + 5 / 100
          else (if p.Features.length > 0 then (85 / 100 : ℚ) + 5 / 100 else 85 / 100)) + 5 / 100
        else
          (if p.Condition ≠ "" then
            (if p.Features.length > 0 then (85 / 100 : ℚ) + 5 / 100 else 85 / 100) + 5 / 100
          else (if p.Features.length > 0 then (85 / 100 : ℚ) + 5 / 100 else 85 / 100))) := by
  simp only [CalculateValuation]

/-- C4. With the current year fixed as Y and arithmetic taken exactly, the value
returned by CalculateValuation equals
((SquareFootage * basePrice * c.Multiplier * TotalScore) + featureSum)
  * max(0.7, 1 - 0.005 * (Y - YearBuilt)) + 25000 * Bedrooms + 15000 * Bathrooms,
where basePrice is the price-table entry of the property type, c the criteria-table
entry of the condition, TotalScore the score of ValidateCondition on the property
and c, and featureSum the sum of the feature values of the listed features that are
keys of FeatureValue: feature additions are depreciated, room values are not. -/
theorem C4_CalculateValuation_value_formula (Y : Int) (env : GoEnv) (p : Property)
    (basePrice : ℚ) (c : PropertyCondition)
    (hb : BasePricePerSquareFoot.lookup p.PropertyType = some basePrice)
    (hc : (ConditionCriteria Y).lookup p.Condition = some c) :
    (CalculateValuation Y env p).1 =
      (((p.SquareFootage : ℚ) * basePrice * c.Multiplier * (ValidateCondition p c).TotalScore)
          + featureSum p.Features)
        * max (7 / 10) (1 - (5 / 1000) * (((Y - p.YearBuilt : Int)) : ℚ))
      + 25000 * (p.Bedrooms : ℚ) + 15000 * (p.Bathrooms : ℚ) := by
  have h1 : basePriceFor p = basePrice := by simp [basePriceFor, hb]
  have h2 : conditionFor Y p = c := by simp [conditionFor, hc]
  rw [CalculateValuation_value, h1, h2]
  unfold ageDepreciation
  rw [mul_comm ((((Y - p.YearBuilt : Int)) : ℚ)) (5 / 1000)]
  ring

/-- Witness for C4: the test property in the year 2026, a house (300 per square
foot) in condition "good". -/
theorem C4_witness :
    (CalculateValuation 2026 envInsertionOrder (CreateTestProperty 2026)).1 =
      ((((CreateTestProperty 2026).SquareFootage : ℚ) * 300 * (criteriaGood 2026).Multiplier
            * (ValidateCondition (CreateTestProperty 2026) (criteriaGood 2026)).TotalScore)
          + featureSum (CreateTestProperty 2026).Features)
        * max (7 / 10)
            (1 - (5 / 1000) * (((2026 - (CreateTestProperty 2026).YearBuilt : Int)) : ℚ))
      + 25000 * ((CreateTestProperty 2026).Bedrooms : ℚ)
      + 15000 * ((CreateTestProperty 2026).Bathrooms : ℚ) :=
  C4_CalculateValuation_value_formula 2026 envInsertionOrder (CreateTestProperty 2026) 300
    (criteriaGood 2026) rfl rfl

end valuation

namespace valuation

open testutil validation

/-- The scorer on the test property against the criteria of "good": the required
feature functional_systems is missing, and nothing else is. -/
theorem ValidateCondition_testProperty (Y : Int) :
    ValidateCondition (CreateTestProperty Y) (criteriaGood Y) =
      { IsValid := false
        Issues := [⟨"Missing required feature: functional_systems", 7 / 10, "feature"⟩]
        TotalScore := 8 / 10
        Adjustments := [("age", 1), ("features", 8 / 10), ("excluded_features", 1),
          ("maintenance", 1), ("renovation", 1)] } := by
  have h1 : ¬ (Y - 5 < Y - 10 ∨ Y - 5 > Y) := by omega
  have h2 : ¬ (Y < Y - 5) := by omega
  simp [ValidateCondition, validateYearBuilt, validateRequiredFeatures,
    validateExcludedFeatures, validateMaintenance, validateRenovation, CreateTestProperty,
    criteriaGood, h1, h2, requiredFeatureStep, featureFound, excludedFeatureStep,
    excludedFeatureInner, mapSet, missingFeatureIssue]
  norm_num

/-- C5 (as stated, refuted in the year 2026). The test property scored against the
criteria of "good" does not get score 1.0 with an empty issue list. -/
theorem C5_counterexample :
    ¬ ((ValidateCondition (CreateTestProperty 2026) (criteriaGood 2026)).TotalScore = 1
      ∧ (ValidateCondition (CreateTestProperty 2026) (criteriaGood 2026)).Issues = []
      ∧ (CalculateValuation 2026 envInsertionOrder (CreateTestProperty 2026)).2.1 = 95 / 100) := by
  rw [ValidateCondition_testProperty]
  simp

/-- C5 (amended). The property of CreateTestProperty, scored against the built-in
criteria of condition "good" (which require the feature functional_systems), gets
TotalScore 0.8 and exactly one issue, "Missing required feature:
functional_systems" of category feature and severity 0.7, so IsValid is false; and
CalculateValuation returns confidence 0.95 for it. -/
theorem C5_testProperty_score_and_confidence (Y : Int) (env : GoEnv) :
    (ConditionCriteria Y).lookup (CreateTestProperty Y).Condition = some (criteriaGood Y)
    ∧ (ValidateCondition (CreateTestProperty Y) (criteriaGood Y)).TotalScore = 8 / 10
    ∧ (ValidateCondition (CreateTestProperty Y) (criteriaGood Y)).Issues =
        [⟨"Missing required feature: functional_systems", 7 / 10, "feature"⟩]
    ∧ (ValidateCondition (CreateTestProperty Y) (criteriaGood Y)).IsValid = false
    ∧ (CalculateValuation Y env (CreateTestProperty Y)).2.1 = 95 / 100 := by
  have hc : conditionFor Y (CreateTestProperty Y) = criteriaGood Y := rfl
  refine ⟨rfl, ?_, ?_, ?_, ?_⟩
  · rw [ValidateCondition_testProperty]
  · rw [ValidateCondition_testProperty]
  · rw [ValidateCondition_testProperty]
  · rw [CalculateValuation_confidence, hc, ValidateCondition_testProperty]
    simp [CreateTestProperty]
    norm_num

end valuation

/-! ## The RPC handler -/

namespace server

open valuation validation testutil

/-- C3 (the code at the failing input). The handler answers every request with a
response and a nil error, and it does so for the request carrying the test property
"invalid_property_type", which ValidateProperty rejects for its property type. -/
theorem C3_handler_answers_rejected_property :
    (∀ (Y : Int) (env : GoEnv) (req : ValuationRequest),
      ∃ resp, CalculateValuation Y env req = Except.ok resp)
    ∧ ValidateProperty 2026
        (toProperty (requestOf { invalidBase 2026 with PropertyType := "invalid_type" }))
      = some ⟨"property_type", "invalid property type"⟩
    ∧ (∃ resp, CalculateValuation 2026 envInsertionOrder
        (requestOf { invalidBase 2026 with PropertyType := "invalid_type" }) = Except.ok resp) :=
  ⟨fun _ _ _ => ⟨_, rfl⟩, by decide, ⟨_, rfl⟩⟩

end server

/-! ## Confidence, positivity and depreciation -/

namespace valuation

open testutil validation

/-- The value and the confidence do not depend on the environment. -/
theorem CalculateValuation_env_independent (Y : Int) (env1 env2 : GoEnv) (p : Property) :
    (CalculateValuation Y env1 p).1 = (CalculateValuation Y env2 p).1
    ∧ (CalculateValuation Y env1 p).2.1 = (CalculateValuation Y env2 p).2.1 := by
  constructor
  · rw [CalculateValuation_value, CalculateValuation_value]
  · rw [CalculateValuation_confidence, CalculateValuation_confidence]

set_option maxRecDepth 100000 in
/-- C6 (the code at the failing input). The test property is accepted by
ValidateProperty in 2026; evaluated once with the adjustments map ranged in
insertion order and once in reverse order, CalculateValuation returns the same
value and the same confidence but two different explanation strings. -/
theorem C6_explanation_depends_on_range_order :
    ValidateProperty 2026 (CreateTestProperty 2026) = none
    ∧ (CalculateValuation 2026 envInsertionOrder (CreateTestProperty 2026)).1
        = (CalculateValuation 2026 envReverseOrder (CreateTestProperty 2026)).1
    ∧ (CalculateValuation 2026 envInsertionOrder (CreateTestProperty 2026)).2.1
        = (CalculateValuation 2026 envReverseOrder (CreateTestProperty 2026)).2.1
    ∧ (CalculateValuation 2026 envInsertionOrder (CreateTestProperty 2026)).2.2
        ≠ (CalculateValuation 2026 envReverseOrder (CreateTestProperty 2026)).2.2 :=
  ⟨by decide, (CalculateValuation_env_independent 2026 _ _ _).1,
    (CalculateValuation_env_independent 2026 _ _ _).2, by decide!⟩

/-- C7. The confidence returned by CalculateValuation equals
min(0.95, 0.85 + 0.05*[features non-empty] + 0.05*[condition not the empty string]
+ 0.05*[the scorer reported zero issues]): 0.85 when none of the three bonus
conditions holds, 0.90 when exactly one holds, 0.95 when two or three hold. -/
theorem C7_confidence_formula (Y : Int) (env : GoEnv) (p : Property) :
    (CalculateValuation Y env p).2.1 =
      min (95 / 100)
        (85 / 100 + (if p.Features ≠ [] then 5 / 100 else 0)
          + (if p.Condition ≠ "" then 5 / 100 else 0)
          + (if (ValidateCondition p (conditionFor Y p)).Issues = [] then 5 / 100 else 0))
    ∧ (CalculateValuation Y env p).2.1 =
      (if (if p.Features ≠ [] then 1 else 0) + (if p.Condition ≠ "" then 1 else 0)
            + (if (ValidateCondition p (conditionFor Y p)).Issues = [] then 1 else 0) = 0
        then 85 / 100
        else if (if p.Features ≠ [] then 1 else 0) + (if p.Condition ≠ "" then 1 else 0)
            + (if (ValidateCondition p (conditionFor Y p)).Issues = [] then 1 else 0) = 1
        then 90 / 100
        else 95 / 100) := by
  have hv := ValidateCondition_IsValid p (conditionFor Y p)
  have hf : p.Features.length > 0 ↔ p.Features ≠ [] := by
    rw [gt_iff_lt, List.length_pos]
  rw [CalculateValuation_confidence]
  simp only [hv, hf]
  by_cases h1 : p.Features = [] <;> by_cases h2 : p.Condition = "" <;>
    by_cases h3 : (ValidateCondition p (conditionFor Y p)).Issues = [] <;>
    simp [h1, h2, h3] <;> norm_num

/-- C8. For every property, validated or not, the confidence returned by
CalculateValuation lies in [0, 0.95]; hence also 0 < confidence <= 1. -/
theorem C8_confidence_bounds (Y : Int) (env : GoEnv) (p : Property) :
    0 ≤ (CalculateValuation Y env p).2.1 ∧ (CalculateValuation Y env p).2.1 ≤ 95 / 100
    ∧ 0 < (CalculateValuation Y env p).2.1 ∧ (CalculateValuation Y env p).2.1 ≤ 1 := by
  have key : 85 / 100 ≤ (CalculateValuation Y env p).2.1
      ∧ (CalculateValuation Y env p).2.1 ≤ 95 / 100 := by
    rw [CalculateValuation_confidence]
    refine ⟨?_, min_le_left _ _⟩
    apply le_min (by norm_num)
    split_ifs <;> norm_num
  obtain ⟨h1, h2⟩ := key
  refine ⟨by linarith, h2, by linarith, by linarith⟩

/-- C10. The depreciation factor d(age) = max(0.7, 1 - 0.005*age) used by
CalculateValuation is non-increasing in age, never below 0.7, and equal to 0.7 for
every age of 60 or more. -/
theorem C10_ageDepreciation_monotone_floored :
    (∀ a b : Int, a ≤ b → ageDepreciation b ≤ ageDepreciation a)
    ∧ (∀ a : Int, 7 / 10 ≤ ageDepreciation a)
    ∧ (∀ a : Int, 60 ≤ a → ageDepreciation a = 7 / 10)
    ∧ (∀ a : Int, ageDepreciation a = max (7 / 10) (1 - (5 / 1000) * (a : ℚ))) := by
  refine ⟨?_, ?_, ?_, ?_⟩
  · intro a b hab
    have h : (a : ℚ) ≤ (b : ℚ) := by exact_mod_cast hab
    unfold ageDepreciation
    apply max_le_max (le_refl _)
    linarith
  · intro a
    exact le_max_left _ _
  · intro a ha
    have h : (60 : ℚ) ≤ (a : ℚ) := by exact_mod_cast ha
    unfold ageDepreciation
    apply max_eq_left
    linarith
  · intro a
    unfold ageDepreciation
    rw [mul_comm]

/-- Witness for C10: ages 5 and 10, and age 100. -/
theorem C10_witness :
    ageDepreciation 10 ≤ ageDepreciation 5 ∧ ageDepreciation 100 = 7 / 10 :=
  ⟨C10_ageDepreciation_monotone_floored.1 5 10 (by decide),
    C10_ageDepreciation_monotone_floored.2.2.1 100 (by decide)⟩

end valuation

namespace valuation

open testutil validation

theorem BasePricePerSquareFoot_pos : ∀ e ∈ BasePricePerSquareFoot, (0 : ℚ) < e.2 := by
  simp [BasePricePerSquareFoot]

theorem FeatureValue_pos : ∀ e ∈ FeatureValue, (0 : ℚ) < e.2 := by
  simp [FeatureValue]

theorem basePriceFor_pos (p : Property) : 0 < basePriceFor p := by
  unfold basePriceFor
  cases h : BasePricePerSquareFoot.lookup p.PropertyType with
  | some v => exact BasePricePerSquareFoot_pos _ (lookup_mem _ _ _ h)
  | none =>
    have : BasePricePerSquareFoot.lookup "apartment" = some 250 := rfl
    simp [this]

theorem featureSum_nonneg (features : List String) : 0 ≤ featureSum features := by
  unfold featureSum
  apply List.sum_nonneg
  intro x hx
  rw [List.mem_filterMap] at hx
  obtain ⟨f, _, hf⟩ := hx
  exact le_of_lt (FeatureValue_pos _ (lookup_mem _ _ _ hf))

/-- The criteria `CalculateValuation` scores against are one of the six built-in
entries. -/
theorem conditionFor_mem (Y : Int) (p : Property) :
    conditionFor Y p ∈ [criteriaExcellent Y, criteriaVeryGood Y, criteriaGood Y,
      criteriaFair Y, criteriaPoor Y, criteriaNeedsWork Y] := by
  unfold conditionFor
  cases h : (ConditionCriteria Y).lookup p.Condition with
  | some c =>
    have := lookup_mem _ _ _ h
    simp only [ConditionCriteria, List.mem_cons, Prod.mk.injEq, List.mem_singleton,
      List.not_mem_nil, or_false] at this
    simp only [List.mem_cons, List.mem_singleton, List.not_mem_nil, or_false]
    rcases this with h | h | h | h | h | h
    · exact Or.inl h.2
    · exact Or.inr (Or.inl h.2)
    · exact Or.inr (Or.inr (Or.inl h.2))
    · exact Or.inr (Or.inr (Or.inr (Or.inl h.2)))
    · exact Or.inr (Or.inr (Or.inr (Or.inr (Or.inl h.2))))
    · exact Or.inr (Or.inr (Or.inr (Or.inr (Or.inr h.2))))
  | none =>
    have : (ConditionCriteria Y).lookup "good" = some (criteriaGood Y) := rfl
    simp [this]

theorem conditionFor_bounds (Y : Int) (p : Property) :
    0 < (conditionFor Y p).Multiplier ∧ (conditionFor Y p).RequiredFeatures.length ≤ 3 := by
  have h := conditionFor_mem Y p
  simp only [List.mem_cons, List.mem_singleton, List.not_mem_nil, or_false] at h
  rcases h with h | h | h | h | h | h <;> rw [h] <;>
    simp [criteriaExcellent, criteriaVeryGood, criteriaGood, criteriaFair, criteriaPoor,
      criteriaNeedsWork]

theorem missingRequired_length_le (p : Property) (c : PropertyCondition) :
    (missingRequired p c).length ≤ c.RequiredFeatures.length :=
  List.length_filter_le _ _

/-- With at most four required features the composite score is positive. -/
theorem ValidateCondition_TotalScore_pos (p : Property) (c : PropertyCondition)
    (h : c.RequiredFeatures.length ≤ 4) : 0 < (ValidateCondition p c).TotalScore := by
  rw [ValidateCondition_TotalScore]
  have hm : ((missingRequired p c).length : ℚ) ≤ 4 := by
    have := missingRequired_length_le p c
    exact_mod_cast le_trans this h
  have h1 : (0 : ℚ) < (if p.YearBuilt < c.MinYearBuilt ∨ p.YearBuilt > c.MaxYearBuilt
      then 1 / 2 else 1) := by split_ifs <;> norm_num
  have h2 : (0 : ℚ) < 1 - ((missingRequired p c).length : ℚ) * (2 / 10) := by linarith
  have h3 : (0 : ℚ) < (8 / 10) ^ excludedHits p c := by positivity
  have h4 : (0 : ℚ) < (if p.MaintenanceLevel ≠ c.MaintenanceLevel then 7 / 10 else 1) := by
    split_ifs <;> norm_num
  have h5 : (0 : ℚ) < (if p.RenovationStatus ≠ c.RenovationStatus then 7 / 10 else 1) := by
    split_ifs <;> norm_num
  exact mul_pos (mul_pos (mul_pos (mul_pos h1 h2) h3) h4) h5

theorem ageDepreciation_pos (a : Int) : 0 < ageDepreciation a :=
  lt_of_lt_of_le (by norm_num) (le_max_left _ _)

/-- C9. With the current year fixed, for every property accepted by
ValidateProperty the value returned by CalculateValuation is strictly positive,
indeed at least 25000 + 15000 = 40000. -/
theorem C9_value_positive_for_valid (Y : Int) (env : GoEnv) (p : Property)
    (hv : ValidateProperty Y p = none) :
    0 < (CalculateValuation Y env p).1 ∧ 40000 ≤ (CalculateValuation Y env p).1 := by
  obtain ⟨-, -, -, -, -, ⟨hs, -⟩, ⟨hb, -⟩, ⟨ht, -⟩⟩ := (ValidateProperty_eq_none_iff Y p).mp hv
  have hs' : (0 : ℚ) < (p.SquareFootage : ℚ) := by exact_mod_cast hs
  have hb' : (1 : ℚ) ≤ (p.Bedrooms : ℚ) := by exact_mod_cast hb
  have ht' : (1 : ℚ) ≤ (p.Bathrooms : ℚ) := by exact_mod_cast ht
  obtain ⟨hm, hr⟩ := conditionFor_bounds Y p
  have hscore := ValidateCondition_TotalScore_pos p (conditionFor Y p) (by omega)
  have hbase : 0 < (p.SquareFootage : ℚ) * basePriceFor p
      * ((conditionFor Y p).Multiplier * (ValidateCondition p (conditionFor Y p)).TotalScore) :=
    mul_pos (mul_pos hs' (basePriceFor_pos p)) (mul_pos hm hscore)
  have hdep : 0 < ((p.SquareFootage : ℚ) * basePriceFor p
      * ((conditionFor Y p).Multiplier * (ValidateCondition p (conditionFor Y p)).TotalScore)
      + featureSum p.Features) * ageDepreciation (Y - p.YearBuilt) :=
    mul_pos (by linarith [featureSum_nonneg p.Features]) (ageDepreciation_pos _)
  rw [CalculateValuation_value]
  constructor <;> linarith

/-- Witness for C9: the test property in the year 2026. -/
theorem C9_witness :
    0 < (CalculateValuation 2026 envInsertionOrder (CreateTestProperty 2026)).1
    ∧ 40000 ≤ (CalculateValuation 2026 envInsertionOrder (CreateTestProperty 2026)).1 :=
  C9_value_positive_for_valid 2026 envInsertionOrder (CreateTestProperty 2026) (by decide)

end valuation

/-! ## The issue list and the adjustments map of the scorer -/

namespace valuation

open testutil validation

theorem foldl_excludedFeatureStep_fst (property : Property) (excl : List String)
    (issues : List ValidationIssue) (s : ℚ) :
    (excl.foldl (excludedFeatureStep property) (issues, s)).1 =
      issues ++ excl.flatMap (fun excluded =>
        List.replicate (property.Features.count excluded) (excludedFeatureIssue excluded)) := by
  induction excl generalizing issues s with
  | nil => simp
  | cons x xs ih =>
    simp only [List.foldl, excludedFeatureStep, foldl_excludedFeatureInner, ih,
      List.flatMap_cons, List.append_assoc]

/-- The issue list of `ValidateCondition`: the issues of the five blocks in the
order of the source. -/
theorem ValidateCondition_Issues (p : Property) (c : PropertyCondition) :
    (ValidateCondition p c).Issues =
      (if p.YearBuilt < c.MinYearBuilt ∨ p.YearBuilt > c.MaxYearBuilt
        then [ageIssue p c] else [])
      ++ ((missingRequired p c).map missingFeatureIssue
      ++ (excludedIssues p c
      ++ ((if p.MaintenanceLevel ≠ c.MaintenanceLevel then [maintenanceIssue p c] else [])
      ++ (if p.RenovationStatus ≠ c.RenovationStatus then [renovationIssue p c] else [])))) := by
  have h1 : ∀ l, (validateYearBuilt p c l).1 =
      l ++ (if p.YearBuilt < c.MinYearBuilt ∨ p.YearBuilt > c.MaxYearBuilt
        then [ageIssue p c] else []) := by
    intro l; unfold validateYearBuilt; split_ifs <;> simp
  have h2 : ∀ l, (validateExcludedFeatures p c l).1 = l ++ excludedIssues p c := by
    intro l; unfold validateExcludedFeatures excludedIssues
    rw [foldl_excludedFeatureStep_fst]
  have h3 : ∀ l, (validateMaintenance p c l).1 =
      l ++ (if p.MaintenanceLevel ≠ c.MaintenanceLevel then [maintenanceIssue p c]
        else []) := by
    intro l; unfold validateMaintenance; split_ifs <;> simp
  have h4 : ∀ l, (validateRenovation p c l).1 =
      l ++ (if p.RenovationStatus ≠ c.RenovationStatus then [renovationIssue p c]
        else []) := by
    intro l; unfold validateRenovation; split_ifs <;> simp
  simp only [ValidateCondition, validateRequiredFeatures_eq, h1, h2, h3, h4, List.nil_append,
    List.append_assoc]

/-- The adjustments map of `ValidateCondition`: five entries, in insertion order. -/
theorem ValidateCondition_Adjustments (p : Property) (c : PropertyCondition) :
    (ValidateCondition p c).Adjustments =
      [ ("age", if p.YearBuilt < c.MinYearBuilt ∨ p.YearBuilt > c.MaxYearBuilt
          then 1 / 2 else 1),
        ("features", 1 - ((missingRequired p c).length : ℚ) * (2 / 10)),
        ("excluded_features", (8 / 10) ^ excludedHits p c),
        ("maintenance", if p.MaintenanceLevel ≠ c.MaintenanceLevel then 7 / 10 else 1),
        ("renovation", if p.RenovationStatus ≠ c.RenovationStatus then 7 / 10 else 1) ] := by
  have h1 : ∀ l, (validateYearBuilt p c l).2 =
      (if p.YearBuilt < c.MinYearBuilt ∨ p.YearBuilt > c.MaxYearBuilt
        then 1 / 2 else 1) := by
    intro l; unfold validateYearBuilt; split_ifs <;> rfl
  have h3 : ∀ l, (validateMaintenance p c l).2 =
      (if p.MaintenanceLevel ≠ c.MaintenanceLevel then 7 / 10 else 1) := by
    intro l; unfold validateMaintenance; split_ifs <;> rfl
  have h4 : ∀ l, (validateRenovation p c l).2 =
      (if p.RenovationStatus ≠ c.RenovationStatus then 7 / 10 else 1) := by
    intro l; unfold validateRenovation; split_ifs <;> rfl
  simp only [ValidateCondition, validateRequiredFeatures_eq, validateExcludedFeatures_snd,
    h1, h3, h4]
  simp [mapSet]

end valuation

namespace valuation

open testutil validation

@[simp] theorem ageIssue_Category (p : Property) (c : PropertyCondition) :
    (ageIssue p c).Category = "age" := rfl

@[simp] theorem missingFeatureIssue_Category (r : String) :
    (missingFeatureIssue r).Category = "feature" := rfl

@[simp] theorem missingFeatureIssue_Severity (r : String) :
    (missingFeatureIssue r).Severity = 7 / 10 := rfl

@[simp] theorem excludedFeatureIssue_Category (x : String) :
    (excludedFeatureIssue x).Category = "feature" := rfl

@[simp] theorem excludedFeatureIssue_Severity (x : String) :
    (excludedFeatureIssue x).Severity = 6 / 10 := rfl

@[simp] theorem maintenanceIssue_Category (p : Property) (c : PropertyCondition) :
    (maintenanceIssue p c).Category = "maintenance" := rfl

@[simp] theorem renovationIssue_Category (p : Property) (c : PropertyCondition) :
    (renovationIssue p c).Category = "renovation" := rfl

theorem mem_excludedIssues (p : Property) (c : PropertyCondition) (i : ValidationIssue)
    (h : i ∈ excludedIssues p c) : ∃ x, i = excludedFeatureIssue x := by
  simp only [excludedIssues, List.mem_flatMap, List.mem_replicate] at h
  obtain ⟨x, _, _, hx⟩ := h
  exact ⟨x, hx⟩

theorem excludedIssues_length (p : Property) (c : PropertyCondition) :
    (excludedIssues p c).length = excludedHits p c := by
  simp [excludedIssues, excludedHits, List.length_flatMap, Function.comp_def]

/-- Filtering the issue list of `ValidateCondition` block by block. -/
theorem filter_Issues (P : ValidationIssue → Bool) (p : Property) (c : PropertyCondition) :
    (ValidateCondition p c).Issues.filter P =
      (if p.YearBuilt < c.MinYearBuilt ∨ p.YearBuilt > c.MaxYearBuilt
        then [ageIssue p c] else []).filter P
      ++ (((missingRequired p c).map missingFeatureIssue).filter P
      ++ ((excludedIssues p c).filter P
      ++ ((if p.MaintenanceLevel ≠ c.MaintenanceLevel then [maintenanceIssue p c]
            else []).filter P
      ++ (if p.RenovationStatus ≠ c.RenovationStatus then [renovationIssue p c]
            else []).filter P))) := by
  rw [ValidateCondition_Issues]
  simp only [List.filter_append]

theorem filter_missing_of_true (P : ValidationIssue → Bool) (l : List String)
    (h : ∀ r, P (missingFeatureIssue r) = true) :
    (l.map missingFeatureIssue).filter P = l.map missingFeatureIssue := by
  rw [List.filter_eq_self]
  intro a ha
  obtain ⟨r, _, rfl⟩ := List.mem_map.mp ha
  exact h r

theorem filter_missing_of_false (P : ValidationIssue → Bool) (l : List String)
    (h : ∀ r, P (missingFeatureIssue r) = false) :
    (l.map missingFeatureIssue).filter P = [] := by
  rw [List.filter_eq_nil_iff]
  intro a ha
  obtain ⟨r, _, rfl⟩ := List.mem_map.mp ha
  simp [h r]

theorem filter_excluded_of_true (P : ValidationIssue → Bool) (p : Property)
    (c : PropertyCondition) (h : ∀ x, P (excludedFeatureIssue x) = true) :
    (excludedIssues p c).filter P = excludedIssues p c := by
  rw [List.filter_eq_self]
  intro a ha
  obtain ⟨x, rfl⟩ := mem_excludedIssues p c a ha
  exact h x

theorem filter_excluded_of_false (P : ValidationIssue → Bool) (p : Property)
    (c : PropertyCondition) (h : ∀ x, P (excludedFeatureIssue x) = false) :
    (excludedIssues p c).filter P = [] := by
  rw [List.filter_eq_nil_iff]
  intro a ha
  obtain ⟨x, rfl⟩ := mem_excludedIssues p c a ha
  simp [h x]

/-- The issues of category "age" in the result. -/
theorem issuesOf_age (p : Property) (c : PropertyCondition) :
    issuesOf "age" (ValidateCondition p c).Issues =
      if p.YearBuilt < c.MinYearBuilt ∨ p.YearBuilt > c.MaxYearBuilt
        then [ageIssue p c] else [] := by
  unfold issuesOf
  rw [filter_Issues, filter_missing_of_false _ _ (by intro r; simp),
    filter_excluded_of_false _ _ _ (by intro x; simp)]
  split_ifs <;> simp

/-- The issues of category "maintenance" in the result. -/
theorem issuesOf_maintenance (p : Property) (c : PropertyCondition) :
    issuesOf "maintenance" (ValidateCondition p c).Issues =
      if p.MaintenanceLevel ≠ c.MaintenanceLevel then [maintenanceIssue p c] else [] := by
  unfold issuesOf
  rw [filter_Issues, filter_missing_of_false _ _ (by intro r; simp),
    filter_excluded_of_false _ _ _ (by intro x; simp)]
  split_ifs <;> simp

/-- The issues of category "renovation" in the result. -/
theorem issuesOf_renovation (p : Property) (c : PropertyCondition) :
    issuesOf "renovation" (ValidateCondition p c).Issues =
      if p.RenovationStatus ≠ c.RenovationStatus then [renovationIssue p c] else [] := by
  unfold issuesOf
  rw [filter_Issues, filter_missing_of_false _ _ (by intro r; simp),
    filter_excluded_of_false _ _ _ (by intro x; simp)]
  split_ifs <;> simp

/-- The issues of category "feature" and severity 0.7 in the result are the
missing-feature issues, in the order of the required features. -/
theorem filter_feature_missing (p : Property) (c : PropertyCondition) :
    (ValidateCondition p c).Issues.filter
        (fun i => decide (i.Category = "feature" ∧ i.Severity = 7 / 10)) =
      (missingRequired p c).map missingFeatureIssue := by
  rw [filter_Issues, filter_missing_of_true _ _ (by intro r; simp),
    filter_excluded_of_false _ _ _ (by intro x; simp; norm_num)]
  split_ifs <;> simp

/-- The issues of category "feature" and severity 0.6 in the result are the
excluded-feature issues. -/
theorem filter_feature_excluded (p : Property) (c : PropertyCondition) :
    (ValidateCondition p c).Issues.filter
        (fun i => decide (i.Category = "feature" ∧ i.Severity = 6 / 10)) =
      excludedIssues p c := by
  rw [filter_Issues, filter_missing_of_false _ _ (by intro r; simp; norm_num),
    filter_excluded_of_true _ _ _ (by intro x; simp)]
  split_ifs <;> simp

theorem countIssues_missing (p : Property) (c : PropertyCondition) :
    countIssues "feature" (7 / 10) (ValidateCondition p c).Issues
      = (missingRequired p c).length := by
  unfold countIssues
  rw [List.countP_eq_length_filter, filter_feature_missing, List.length_map]

theorem countIssues_excluded (p : Property) (c : PropertyCondition) :
    countIssues "feature" (6 / 10) (ValidateCondition p c).Issues = excludedHits p c := by
  unfold countIssues
  rw [List.countP_eq_length_filter, filter_feature_excluded, excludedIssues_length]

end valuation

/-! ## Fallbacks and the fields the computation reads -/

namespace valuation

open testutil validation

/-- The scorer reads the year built, the features, the maintenance level and the
renovation status of a property, and nothing else. -/
theorem ValidateCondition_congr (p q : Property) (c : PropertyCondition)
    (hy : p.YearBuilt = q.YearBuilt) (hf : p.Features = q.Features)
    (hm : p.MaintenanceLevel = q.MaintenanceLevel)
    (hr : p.RenovationStatus = q.RenovationStatus) :
    ValidateCondition p c = ValidateCondition q c := by
  obtain ⟨a1, t1, b1, ba1, s1, y1, c1, f1, l1, m1, r1⟩ := p
  obtain ⟨a2, t2, b2, ba2, s2, y2, c2, f2, l2, m2, r2⟩ := q
  simp only at hy hf hm hr
  subst hy hf hm hr
  rfl

/-- The explanation is a function of the base price, the type name, the criteria,
the result of the scorer, the features, the year built and the room counts. -/
theorem CalculateValuation_explanation_congr (Y : Int) (env : GoEnv) (p q : Property)
    (h1 : basePriceFor p = basePriceFor q) (h2 : p.PropertyType = q.PropertyType)
    (h3 : conditionFor Y p = conditionFor Y q)
    (h4 : ValidateCondition p (conditionFor Y q) = ValidateCondition q (conditionFor Y q))
    (h5 : p.Features = q.Features) (h6 : p.YearBuilt = q.YearBuilt)
    (h7 : p.Bedrooms = q.Bedrooms) (h8 : p.Bathrooms = q.Bathrooms) :
    (CalculateValuation Y env p).2.2 = (CalculateValuation Y env q).2.2 := by
  simp only [CalculateValuation, h1, h2, h3, h4, h5, h6, h7, h8]

/-- C11. For a property whose type is not a key of BasePricePerSquareFoot,
CalculateValuation uses the apartment rate, 250 per square foot, and returns the
same value and the same confidence as for the property with its type replaced by
"apartment". -/
theorem C11_unknown_type_uses_apartment_rate (Y : Int) (env : GoEnv) (p : Property)
    (h : p.PropertyType ∉ BasePricePerSquareFoot.map Prod.fst) :
    basePriceFor p = 250
    ∧ (CalculateValuation Y env p).1
        = (CalculateValuation Y env { p with PropertyType := "apartment" }).1
    ∧ (CalculateValuation Y env p).2.1
        = (CalculateValuation Y env { p with PropertyType := "apartment" }).2.1 := by
  have hb : basePriceFor p = 250 := by
    have hn := (lookup_eq_none_iff _ _).mpr h
    unfold basePriceFor
    rw [hn]
    rfl
  have hb2 : basePriceFor { p with PropertyType := "apartment" } = 250 := rfl
  have hc : conditionFor Y { p with PropertyType := "apartment" } = conditionFor Y p := rfl
  have hv : ValidateCondition { p with PropertyType := "apartment" } (conditionFor Y p)
      = ValidateCondition p (conditionFor Y p) :=
    ValidateCondition_congr _ _ _ rfl rfl rfl rfl
  refine ⟨hb, ?_, ?_⟩
  · rw [CalculateValuation_value, CalculateValuation_value, hb, hb2, hc, hv]
  · rw [CalculateValuation_confidence, CalculateValuation_confidence, hc, hv]

/-- Witness for C11: the test property "invalid_property_type" in the year 2026. -/
theorem C11_witness :
    basePriceFor { invalidBase 2026 with PropertyType := "invalid_type" } = 250
    ∧ (CalculateValuation 2026 envInsertionOrder
          { invalidBase 2026 with PropertyType := "invalid_type" }).1
        = (CalculateValuation 2026 envInsertionOrder
          { invalidBase 2026 with PropertyType := "apartment" }).1
    ∧ (CalculateValuation 2026 envInsertionOrder
          { invalidBase 2026 with PropertyType := "invalid_type" }).2.1
        = (CalculateValuation 2026 envInsertionOrder
          { invalidBase 2026 with PropertyType := "apartment" }).2.1 :=
  C11_unknown_type_uses_apartment_rate 2026 envInsertionOrder
    { invalidBase 2026 with PropertyType := "invalid_type" } (by decide)

/-- For a property whose condition is not a key of `ConditionCriteria` the scorer
runs on the criteria of "good"; the value equals that of the property with its
condition replaced by "good", and so does the confidence when the condition is not
the empty string, whatever the two environments of the two calls. -/
theorem unknown_condition_value_confidence (Y : Int) (env1 env2 : GoEnv) (p : Property)
    (h : p.Condition ∉ (ConditionCriteria Y).map Prod.fst) :
    conditionFor Y p = criteriaGood Y
    ∧ (CalculateValuation Y env1 p).1
        = (CalculateValuation Y env2 { p with Condition := "good" }).1
    ∧ (p.Condition ≠ "" →
        (CalculateValuation Y env1 p).2.1
          = (CalculateValuation Y env2 { p with Condition := "good" }).2.1) := by
  have hc : conditionFor Y p = criteriaGood Y := by
    have hn := (lookup_eq_none_iff _ _).mpr h
    unfold conditionFor
    rw [hn]
    rfl
  have hc2 : conditionFor Y { p with Condition := "good" } = criteriaGood Y := rfl
  have hb : basePriceFor { p with Condition := "good" } = basePriceFor p := rfl
  have hv : ValidateCondition p (criteriaGood Y)
      = ValidateCondition { p with Condition := "good" } (criteriaGood Y) :=
    ValidateCondition_congr _ _ _ rfl rfl rfl rfl
  refine ⟨hc, ?_, ?_⟩
  · rw [CalculateValuation_value, CalculateValuation_value, hc, hc2, hb, ← hv]
  · intro hne
    rw [CalculateValuation_confidence, CalculateValuation_confidence, hc, hc2, ← hv]
    have hg : ("good" : String) ≠ "" := by decide
    simp only [if_pos hne, if_pos hg]

/-- In one and the same environment (same range order, same rendering) the
explanation for a property with an unknown condition is that of the property with
its condition replaced by "good". -/
theorem unknown_condition_explanation_same_env (Y : Int) (env : GoEnv) (p : Property)
    (h : p.Condition ∉ (ConditionCriteria Y).map Prod.fst) :
    (CalculateValuation Y env p).2.2
      = (CalculateValuation Y env { p with Condition := "good" }).2.2 := by
  have hc := (unknown_condition_value_confidence Y env env p h).1
  have hc2 : conditionFor Y { p with Condition := "good" } = criteriaGood Y := rfl
  have hv : ValidateCondition p (criteriaGood Y)
      = ValidateCondition { p with Condition := "good" } (criteriaGood Y) :=
    ValidateCondition_congr _ _ _ rfl rfl rfl rfl
  exact CalculateValuation_explanation_congr Y env p { p with Condition := "good" }
    rfl rfl (hc.trans hc2.symm) (by rw [hc2]; exact hv) rfl rfl rfl rfl

set_option maxRecDepth 100000 in
/-- C12 (the code at the failing input). The test property "invalid_condition" of
the year 2026 has a non-empty condition that is not a key of ConditionCriteria and
is scored against the criteria of "good"; it gets the same value and confidence as
the property with condition "good", but when the call on the one ranges the
adjustments map in insertion order and the call on the other in reverse order, the
two explanation strings differ. -/
theorem C12_explanation_differs_between_calls :
    ({ invalidBase 2026 with Condition := "invalid_condition" } : Property).Condition
        ∉ (ConditionCriteria 2026).map Prod.fst
    ∧ ({ invalidBase 2026 with Condition := "invalid_condition" } : Property).Condition ≠ ""
    ∧ conditionFor 2026 { invalidBase 2026 with Condition := "invalid_condition" }
        = criteriaGood 2026
    ∧ (CalculateValuation 2026 envInsertionOrder
          { invalidBase 2026 with Condition := "invalid_condition" }).1
        = (CalculateValuation 2026 envReverseOrder
          { invalidBase 2026 with Condition := "good" }).1
    ∧ (CalculateValuation 2026 envInsertionOrder
          { invalidBase 2026 with Condition := "invalid_condition" }).2.1
        = (CalculateValuation 2026 envReverseOrder
          { invalidBase 2026 with Condition := "good" }).2.1
    ∧ (CalculateValuation 2026 envInsertionOrder
          { invalidBase 2026 with Condition := "invalid_condition" }).2.2
        ≠ (CalculateValuation 2026 envReverseOrder
          { invalidBase 2026 with Condition := "good" }).2.2 :=
  ⟨by decide, by decide, rfl,
    (unknown_condition_value_confidence 2026 envInsertionOrder envReverseOrder
      { invalidBase 2026 with Condition := "invalid_condition" } (by decide)).2.1,
    (unknown_condition_value_confidence 2026 envInsertionOrder envReverseOrder
      { invalidBase 2026 with Condition := "invalid_condition" } (by decide)).2.2 (by decide),
    by decide!⟩

/-- Address and Location are read neither by the validator nor by the calculator:
the verdict is the same, value and confidence are the same whatever the two
environments of the two calls, and in one and the same environment the explanation
is the same too. -/
theorem address_and_location_not_read (Y : Int) (env1 env2 : GoEnv) (p : Property)
    (address : String) (location : Location) :
    ValidateProperty Y { p with Address := address, Location := location }
      = ValidateProperty Y p
    ∧ (CalculateValuation Y env1 { p with Address := address, Location := location }).1
      = (CalculateValuation Y env2 p).1
    ∧ (CalculateValuation Y env1 { p with Address := address, Location := location }).2.1
      = (CalculateValuation Y env2 p).2.1
    ∧ CalculateValuation Y env1 { p with Address := address, Location := location }
      = CalculateValuation Y env1 p := by
  have hv : ∀ c, ValidateCondition { p with Address := address, Location := location } c
      = ValidateCondition p c :=
    fun c => ValidateCondition_congr _ _ _ rfl rfl rfl rfl
  have c1 : conditionFor Y { p with Address := address, Location := location }
      = conditionFor Y p := rfl
  have b1 : basePriceFor { p with Address := address, Location := location }
      = basePriceFor p := rfl
  have e1 : ∀ env env' : GoEnv,
      (CalculateValuation Y env { p with Address := address, Location := location }).1
        = (CalculateValuation Y env' p).1 := by
    intro env env'
    rw [CalculateValuation_value, CalculateValuation_value, c1, b1, hv]
  have e2 : ∀ env env' : GoEnv,
      (CalculateValuation Y env { p with Address := address, Location := location }).2.1
        = (CalculateValuation Y env' p).2.1 := by
    intro env env'
    rw [CalculateValuation_confidence, CalculateValuation_confidence, c1, hv]
  have e3 := CalculateValuation_explanation_congr Y env1
    { p with Address := address, Location := location } p rfl rfl rfl (hv _) rfl rfl rfl rfl
  refine ⟨rfl, e1 env1 env2, e2 env1 env2, ?_⟩
  apply Prod.ext
  · exact e1 env1 env1
  · apply Prod.ext
    · exact e2 env1 env1
    · exact e3

set_option maxRecDepth 100000 in
/-- C15 (the code at the failing input). The test property of the year 2026 and the
same property with another address and location get the same verdict of
ValidateProperty (accepted), the same value and the same confidence, but when the
call on the one ranges the adjustments map in insertion order and the call on the
other in reverse order, the two explanation strings differ. -/
theorem C15_explanation_differs_between_calls :
    ValidateProperty 2026
        { CreateTestProperty 2026 with Address := "456 Other St", Location := ⟨1, 1⟩ }
      = ValidateProperty 2026 (CreateTestProperty 2026)
    ∧ ValidateProperty 2026 (CreateTestProperty 2026) = none
    ∧ (CalculateValuation 2026 envReverseOrder
          { CreateTestProperty 2026 with Address := "456 Other St", Location := ⟨1, 1⟩ }).1
        = (CalculateValuation 2026 envInsertionOrder (CreateTestProperty 2026)).1
    ∧ (CalculateValuation 2026 envReverseOrder
          { CreateTestProperty 2026 with Address := "456 Other St", Location := ⟨1, 1⟩ }).2.1
        = (CalculateValuation 2026 envInsertionOrder (CreateTestProperty 2026)).2.1
    ∧ (CalculateValuation 2026 envReverseOrder
          { CreateTestProperty 2026 with Address := "456 Other St", Location := ⟨1, 1⟩ }).2.2
        ≠ (CalculateValuation 2026 envInsertionOrder (CreateTestProperty 2026)).2.2 :=
  ⟨rfl, by decide,
    (address_and_location_not_read 2026 envReverseOrder envInsertionOrder
      (CreateTestProperty 2026) "456 Other St" ⟨1, 1⟩).2.1,
    (address_and_location_not_read 2026 envReverseOrder envInsertionOrder
      (CreateTestProperty 2026) "456 Other St" ⟨1, 1⟩).2.2.1,
    by decide!⟩

end valuation

/-! ## Score and issues -/

namespace valuation

open testutil validation

theorem missingRequired_eq_filter (p : Property) (c : PropertyCondition) :
    missingRequired p c = c.RequiredFeatures.filter (fun r => decide (r ∉ p.Features)) := by
  unfold missingRequired
  congr 1
  funext r
  by_cases h : r ∈ p.Features
  · simp [h, (featureFound_iff r p.Features).mpr h]
  · have : featureFound r p.Features = false := by
      rw [← Bool.not_eq_true, featureFound_iff]; exact h
    simp [h, this]

theorem missingRequired_eq_nil_iff (p : Property) (c : PropertyCondition) :
    missingRequired p c = [] ↔ ∀ r ∈ c.RequiredFeatures, r ∈ p.Features := by
  rw [missingRequired_eq_filter, List.filter_eq_nil_iff]
  simp

theorem excludedHits_eq_zero_iff (p : Property) (c : PropertyCondition) :
    excludedHits p c = 0 ↔ ∀ x ∈ c.ExcludedFeatures, x ∉ p.Features := by
  unfold excludedHits
  rw [List.sum_eq_zero_iff]
  simp [List.count_eq_zero]

/-- The issue list is empty exactly when none of the five blocks logs an issue. -/
theorem Issues_eq_nil_iff (p : Property) (c : PropertyCondition) :
    (ValidateCondition p c).Issues = [] ↔
      (¬ (p.YearBuilt < c.MinYearBuilt ∨ p.YearBuilt > c.MaxYearBuilt)
        ∧ missingRequired p c = [] ∧ excludedHits p c = 0
        ∧ p.MaintenanceLevel = c.MaintenanceLevel
        ∧ p.RenovationStatus = c.RenovationStatus) := by
  rw [ValidateCondition_Issues]
  simp only [List.append_eq_nil, List.map_eq_nil_iff]
  rw [← excludedIssues_length, List.length_eq_zero]
  constructor
  · rintro ⟨h1, h2, h3, h4, h5⟩
    refine ⟨?_, h2, h3, ?_, ?_⟩
    · intro h; rw [if_pos h] at h1; simp at h1
    · by_contra h; rw [if_pos h] at h4; simp at h4
    · by_contra h; rw [if_pos h] at h5; simp at h5
  · rintro ⟨h1, h2, h3, h4, h5⟩
    refine ⟨by rw [if_neg h1], h2, h3, ?_, ?_⟩
    · rw [if_neg (not_not.mpr h4)]
    · rw [if_neg (not_not.mpr h5)]

theorem pow_eight_tenths (n : Nat) :
    (0 : ℚ) < (8 / 10) ^ n ∧ ((8 / 10 : ℚ)) ^ n ≤ 1 ∧ (0 < n → ((8 / 10 : ℚ)) ^ n < 1) := by
  induction n with
  | zero => simp
  | succ k ih =>
    obtain ⟨h1, h2, _⟩ := ih
    rw [pow_succ]
    refine ⟨by positivity, by nlinarith, fun _ => by nlinarith⟩

theorem mul_unit_interval (x y : ℚ) (hx : 0 < x ∧ x ≤ 1) (hy : 0 < y ∧ y ≤ 1) :
    (0 < x * y ∧ x * y ≤ 1) ∧ ((x < 1 ∨ y < 1) → x * y < 1) := by
  obtain ⟨hx0, hx1⟩ := hx
  obtain ⟨hy0, hy1⟩ := hy
  refine ⟨⟨mul_pos hx0 hy0, by nlinarith⟩, ?_⟩
  rintro (h | h) <;> nlinarith

/-- With an issue logged the composite score is below 1, whatever the sign of the
required-feature score. -/
theorem TotalScore_lt_one_of_issue (p : Property) (c : PropertyCondition)
    (h : (ValidateCondition p c).Issues ≠ []) : (ValidateCondition p c).TotalScore < 1 := by
  rw [Ne, Issues_eq_nil_iff] at h
  rw [ValidateCondition_TotalScore]
  have ha : (0 : ℚ) < (if p.YearBuilt < c.MinYearBuilt ∨ p.YearBuilt > c.MaxYearBuilt
      then 1 / 2 else 1) ∧ (if p.YearBuilt < c.MinYearBuilt ∨ p.YearBuilt > c.MaxYearBuilt
      then (1 / 2 : ℚ) else 1) ≤ 1 := by split_ifs <;> norm_num
  have he := pow_eight_tenths (excludedHits p c)
  have hm : (0 : ℚ) < (if p.MaintenanceLevel ≠ c.MaintenanceLevel then 7 / 10 else 1)
      ∧ (if p.MaintenanceLevel ≠ c.MaintenanceLevel then (7 / 10 : ℚ) else 1) ≤ 1 := by
    split_ifs <;> norm_num
  have hr : (0 : ℚ) < (if p.RenovationStatus ≠ c.RenovationStatus then 7 / 10 else 1)
      ∧ (if p.RenovationStatus ≠ c.RenovationStatus then (7 / 10 : ℚ) else 1) ≤ 1 := by
    split_ifs <;> norm_num
  by_cases hf : (1 : ℚ) - ((missingRequired p c).length : ℚ) * (2 / 10) ≤ 0
  · have h1 : (if p.YearBuilt < c.MinYearBuilt ∨ p.YearBuilt > c.MaxYearBuilt
        then (1 / 2 : ℚ) else 1) * (1 - ((missingRequired p c).length : ℚ) * (2 / 10)) ≤ 0 :=
      mul_nonpos_of_nonneg_of_nonpos (le_of_lt ha.1) hf
    have h2 := mul_nonpos_of_nonpos_of_nonneg h1 (le_of_lt he.1)
    have h3 := mul_nonpos_of_nonpos_of_nonneg h2 (le_of_lt hm.1)
    have h4 := mul_nonpos_of_nonpos_of_nonneg h3 (le_of_lt hr.1)
    linarith
  · push_neg at hf
    have hk : (0 : ℚ) ≤ ((missingRequired p c).length : ℚ) := Nat.cast_nonneg _
    have hf1 : (1 : ℚ) - ((missingRequired p c).length : ℚ) * (2 / 10) ≤ 1 := by linarith
    have s1 := mul_unit_interval _ _ ha ⟨hf, hf1⟩
    have s2 := mul_unit_interval _ _ s1.1 ⟨he.1, he.2.1⟩
    have s3 := mul_unit_interval _ _ s2.1 hm
    have s4 := mul_unit_interval _ _ s3.1 hr
    by_cases b1 : p.YearBuilt < c.MinYearBuilt ∨ p.YearBuilt > c.MaxYearBuilt
    · apply s4.2; left; apply s3.2; left; apply s2.2; left; apply s1.2; left
      rw [if_pos b1]; norm_num
    by_cases b2 : missingRequired p c = []
    swap
    · apply s4.2; left; apply s3.2; left; apply s2.2; left; apply s1.2; right
      have : 0 < (missingRequired p c).length := List.length_pos.mpr b2
      have : (1 : ℚ) ≤ ((missingRequired p c).length : ℚ) := by exact_mod_cast this
      linarith
    by_cases b3 : excludedHits p c = 0
    swap
    · apply s4.2; left; apply s3.2; left; apply s2.2; right
      exact he.2.2 (Nat.pos_of_ne_zero b3)
    by_cases b4 : p.MaintenanceLevel = c.MaintenanceLevel
    swap
    · apply s4.2; left; apply s3.2; right
      rw [if_pos b4]; norm_num
    have b5 : ¬ p.RenovationStatus = c.RenovationStatus := fun b5 => h ⟨b1, b2, b3, b4, b5⟩
    apply s4.2; right
    rw [if_pos b5]; norm_num

theorem TotalScore_eq_one_of_no_issue (p : Property) (c : PropertyCondition)
    (h : (ValidateCondition p c).Issues = []) : (ValidateCondition p c).TotalScore = 1 := by
  rw [Issues_eq_nil_iff] at h
  obtain ⟨h1, h2, h3, h4, h5⟩ := h
  rw [ValidateCondition_TotalScore, if_neg h1, h2, h3, if_neg (not_not.mpr h4),
    if_neg (not_not.mpr h5)]
  norm_num

end valuation

namespace valuation

open testutil validation

/-- C14. ValidateCondition returns IsValid = true with an empty issue list exactly
when the year built lies in the range of the criteria, every required feature
occurs in the property features, no excluded feature occurs in them, and the
maintenance level and the renovation status equal the expected ones; otherwise
IsValid is false and the issue list is not empty. -/
theorem C14_IsValid_iff_all_criteria_met (p : Property) (c : PropertyCondition) :
    ((ValidateCondition p c).IsValid = true ∧ (ValidateCondition p c).Issues = [] ↔
      ((c.MinYearBuilt ≤ p.YearBuilt ∧ p.YearBuilt ≤ c.MaxYearBuilt)
        ∧ (∀ r ∈ c.RequiredFeatures, r ∈ p.Features)
        ∧ (∀ x ∈ c.ExcludedFeatures, x ∉ p.Features)
        ∧ p.MaintenanceLevel = c.MaintenanceLevel
        ∧ p.RenovationStatus = c.RenovationStatus))
    ∧ ((ValidateCondition p c).IsValid = false ∧ (ValidateCondition p c).Issues ≠ [] ↔
      ¬ ((c.MinYearBuilt ≤ p.YearBuilt ∧ p.YearBuilt ≤ c.MaxYearBuilt)
        ∧ (∀ r ∈ c.RequiredFeatures, r ∈ p.Features)
        ∧ (∀ x ∈ c.ExcludedFeatures, x ∉ p.Features)
        ∧ p.MaintenanceLevel = c.MaintenanceLevel
        ∧ p.RenovationStatus = c.RenovationStatus)) := by
  have hv := ValidateCondition_IsValid p c
  have hy : ¬ (p.YearBuilt < c.MinYearBuilt ∨ p.YearBuilt > c.MaxYearBuilt) ↔
      (c.MinYearBuilt ≤ p.YearBuilt ∧ p.YearBuilt ≤ c.MaxYearBuilt) := by omega
  have key : (ValidateCondition p c).Issues = [] ↔
      ((c.MinYearBuilt ≤ p.YearBuilt ∧ p.YearBuilt ≤ c.MaxYearBuilt)
        ∧ (∀ r ∈ c.RequiredFeatures, r ∈ p.Features)
        ∧ (∀ x ∈ c.ExcludedFeatures, x ∉ p.Features)
        ∧ p.MaintenanceLevel = c.MaintenanceLevel
        ∧ p.RenovationStatus = c.RenovationStatus) := by
    rw [Issues_eq_nil_iff, hy, missingRequired_eq_nil_iff, excludedHits_eq_zero_iff]
  constructor
  · rw [← key]
    constructor
    · exact fun h => h.2
    · exact fun h => ⟨hv.mpr h, h⟩
  · rw [← key]
    constructor
    · exact fun h => h.2
    · intro h
      refine ⟨?_, h⟩
      cases hb : (ValidateCondition p c).IsValid with
      | false => rfl
      | true => exact absurd (hv.mp hb) h

/-- C16. The TotalScore of ValidateCondition is 1 exactly when the issue list is
empty, that is when IsValid is true; and it is strictly below 1 exactly when an
issue was logged, also when the required-feature score is zero or negative. -/
theorem C16_score_one_iff_no_issue (p : Property) (c : PropertyCondition) :
    ((ValidateCondition p c).TotalScore = 1 ↔ (ValidateCondition p c).Issues = [])
    ∧ ((ValidateCondition p c).TotalScore = 1 ↔ (ValidateCondition p c).IsValid = true)
    ∧ ((ValidateCondition p c).TotalScore < 1 ↔ (ValidateCondition p c).Issues ≠ []) := by
  have h1 : (ValidateCondition p c).TotalScore = 1 ↔ (ValidateCondition p c).Issues = [] := by
    constructor
    · intro h
      by_contra hne
      have := TotalScore_lt_one_of_issue p c hne
      linarith
    · exact TotalScore_eq_one_of_no_issue p c
  refine ⟨h1, h1.trans (ValidateCondition_IsValid p c).symm, ?_⟩
  constructor
  · intro h hnil
    have := TotalScore_eq_one_of_no_issue p c hnil
    linarith
  · exact TotalScore_lt_one_of_issue p c

/-- C17 (the code at the failing input). For criteria with six required features
and a property that has none of them (everything else matching), the entry
"features" of the adjustments map is -0.2 and the TotalScore is -0.2, below 0. -/
theorem C17_score_negative_with_six_missing :
    (ValidateCondition
        { invalidBase 2026 with MaintenanceLevel := "poor", RenovationStatus := "needs_repairs" }
        { criteriaPoor 2026 with
          RequiredFeatures := ["garage", "garden", "pool", "fence", "patio", "deck"] }
      ).Adjustments.lookup "features" = some (-(2 / 10))
    ∧ (ValidateCondition
        { invalidBase 2026 with MaintenanceLevel := "poor", RenovationStatus := "needs_repairs" }
        { criteriaPoor 2026 with
          RequiredFeatures := ["garage", "garden", "pool", "fence", "patio", "deck"] }
      ).TotalScore = -(2 / 10)
    ∧ (ValidateCondition
        { invalidBase 2026 with MaintenanceLevel := "poor", RenovationStatus := "needs_repairs" }
        { criteriaPoor 2026 with
          RequiredFeatures := ["garage", "garden", "pool", "fence", "patio", "deck"] }
      ).TotalScore < 0 := by
  have hm : missingRequired
      { invalidBase 2026 with MaintenanceLevel := "poor", RenovationStatus := "needs_repairs" }
      { criteriaPoor 2026 with
        RequiredFeatures := ["garage", "garden", "pool", "fence", "patio", "deck"] }
      = ["garage", "garden", "pool", "fence", "patio", "deck"] := by decide
  have he : excludedHits
      { invalidBase 2026 with MaintenanceLevel := "poor", RenovationStatus := "needs_repairs" }
      { criteriaPoor 2026 with
        RequiredFeatures := ["garage", "garden", "pool", "fence", "patio", "deck"] }
      = 0 := by decide
  rw [ValidateCondition_TotalScore, ValidateCondition_Adjustments, hm, he]
  simp [invalidBase, criteriaPoor, List.lookup]
  norm_num

end valuation

namespace valuation

open testutil validation

/-- C18 (amended). With arithmetic taken exactly: with m the number of strings of
c.RequiredFeatures that do not occur in p.Features, the required-feature sub-score
is 1 - 0.2*m and ValidateCondition logs
exactly m issues of category "feature" with severity 0.7, "Missing required
feature: ..." for each missing string in the order of c.RequiredFeatures; for a
property with none of energy_efficient, modern_appliances, smart_home scored
against the built-in "excellent" criteria there are exactly three such issues, the
required-feature score is 0.4 and IsValid is false. -/
theorem C18_missing_required_features (p : Property) (c : PropertyCondition) (Y : Int) :
    (ValidateCondition p c).Adjustments.lookup "features" =
      some (1 - (2 / 10) *
        ((c.RequiredFeatures.filter (fun r => decide (r ∉ p.Features))).length : ℚ))
    ∧ (ValidateCondition p c).Issues.filter
        (fun i => decide (i.Category = "feature" ∧ i.Severity = 7 / 10)) =
      (c.RequiredFeatures.filter (fun r => decide (r ∉ p.Features))).map
        (fun r => ⟨"Missing required feature: " ++ r, 7 / 10, "feature"⟩)
    ∧ countIssues "feature" (7 / 10) (ValidateCondition p c).Issues =
      (c.RequiredFeatures.filter (fun r => decide (r ∉ p.Features))).length
    ∧ ("energy_efficient" ∉ p.Features → "modern_appliances" ∉ p.Features →
        "smart_home" ∉ p.Features →
        (ConditionCriteria Y).lookup "excellent" = some (criteriaExcellent Y)
        ∧ (ValidateCondition p (criteriaExcellent Y)).Issues.filter
            (fun i => decide (i.Category = "feature" ∧ i.Severity = 7 / 10)) =
          [ ⟨"Missing required feature: energy_efficient", 7 / 10, "feature"⟩,
            ⟨"Missing required feature: modern_appliances", 7 / 10, "feature"⟩,
            ⟨"Missing required feature: smart_home", 7 / 10, "feature"⟩ ]
        ∧ (ValidateCondition p (criteriaExcellent Y)).Adjustments.lookup "features"
            = some (4 / 10)
        ∧ (ValidateCondition p (criteriaExcellent Y)).IsValid = false) := by
  have hl : ∀ q : PropertyCondition, (ValidateCondition p q).Adjustments.lookup "features" =
      some (1 - ((missingRequired p q).length : ℚ) * (2 / 10)) := by
    intro q
    rw [ValidateCondition_Adjustments]
    simp [List.lookup]
  refine ⟨?_, ?_, ?_, ?_⟩
  · rw [hl, missingRequired_eq_filter, mul_comm]
  · rw [filter_feature_missing, missingRequired_eq_filter]
    rfl
  · rw [countIssues_missing, missingRequired_eq_filter]
  · intro h1 h2 h3
    have hm : missingRequired p (criteriaExcellent Y)
        = ["energy_efficient", "modern_appliances", "smart_home"] := by
      rw [missingRequired_eq_filter]
      simp [criteriaExcellent, h1, h2, h3]
    refine ⟨rfl, ?_, ?_, ?_⟩
    · rw [filter_feature_missing, hm]
      rfl
    · rw [hl, hm]
      norm_num
    · cases hb : (ValidateCondition p (criteriaExcellent Y)).IsValid with
      | false => rfl
      | true =>
        have hnil := (ValidateCondition_IsValid p _).mp hb
        rw [Issues_eq_nil_iff, hm] at hnil
        simp at hnil

/-- Witness for C18 (amended): the test property (garage, garden) against "excellent" in 2026. -/
theorem C18_witness :
    (ConditionCriteria 2026).lookup "excellent" = some (criteriaExcellent 2026)
    ∧ (ValidateCondition (CreateTestProperty 2026) (criteriaExcellent 2026)).Issues.filter
        (fun i => decide (i.Category = "feature" ∧ i.Severity = 7 / 10)) =
      [ ⟨"Missing required feature: energy_efficient", 7 / 10, "feature"⟩,
        ⟨"Missing required feature: modern_appliances", 7 / 10, "feature"⟩,
        ⟨"Missing required feature: smart_home", 7 / 10, "feature"⟩ ]
    ∧ (ValidateCondition (CreateTestProperty 2026) (criteriaExcellent 2026)).Adjustments.lookup
        "features" = some (4 / 10)
    ∧ (ValidateCondition (CreateTestProperty 2026) (criteriaExcellent 2026)).IsValid = false :=
  (C18_missing_required_features (CreateTestProperty 2026) (criteriaExcellent 2026) 2026).2.2.2
    (by decide) (by decide) (by decide)

/-- C19. If the maintenance level of the property equals the expected one, the
maintenance sub-score is 1.0 and no maintenance issue is logged; otherwise the
sub-score is 0.7 and exactly one issue of category "maintenance" is logged, with
severity 0.9 when the property has "very_poor" and "excellent" is expected, and
severity 0.5 in every other mismatch. -/
theorem C19_maintenance_conformance (p : Property) (c : PropertyCondition) :
    (p.MaintenanceLevel = c.MaintenanceLevel →
      (ValidateCondition p c).Adjustments.lookup "maintenance" = some 1
      ∧ issuesOf "maintenance" (ValidateCondition p c).Issues = [])
    ∧ (p.MaintenanceLevel ≠ c.MaintenanceLevel →
      (ValidateCondition p c).Adjustments.lookup "maintenance" = some (7 / 10)
      ∧ ∃ i, issuesOf "maintenance" (ValidateCondition p c).Issues = [i]
        ∧ (p.MaintenanceLevel = "very_poor" ∧ c.MaintenanceLevel = "excellent" →
            i.Severity = 9 / 10)
        ∧ (¬ (p.MaintenanceLevel = "very_poor" ∧ c.MaintenanceLevel = "excellent") →
            i.Severity = 5 / 10)) := by
  have hl : (ValidateCondition p c).Adjustments.lookup "maintenance" =
      some (if p.MaintenanceLevel ≠ c.MaintenanceLevel then 7 / 10 else 1) := by
    rw [ValidateCondition_Adjustments]
    simp [List.lookup]
  constructor
  · intro h
    rw [hl, issuesOf_maintenance, if_neg (not_not.mpr h), if_neg (not_not.mpr h)]
    exact ⟨rfl, rfl⟩
  · intro h
    rw [hl, issuesOf_maintenance, if_pos h, if_pos h]
    refine ⟨rfl, maintenanceIssue p c, rfl, ?_, ?_⟩
    · intro hs
      simp [maintenanceIssue, hs]
    · intro hs
      simp only [maintenanceIssue, if_neg hs]

/-- Witness for C19: the test property (maintenance "good") against "good" and
against "excellent", and a "very_poor" property against "excellent", in 2026. -/
theorem C19_witness :
    ((ValidateCondition (CreateTestProperty 2026) (criteriaGood 2026)).Adjustments.lookup
        "maintenance" = some 1
      ∧ issuesOf "maintenance"
          (ValidateCondition (CreateTestProperty 2026) (criteriaGood 2026)).Issues = [])
    ∧ ((ValidateCondition { CreateTestProperty 2026 with MaintenanceLevel := "very_poor" }
          (criteriaExcellent 2026)).Adjustments.lookup "maintenance" = some (7 / 10)
      ∧ ∃ i, issuesOf "maintenance"
          (ValidateCondition { CreateTestProperty 2026 with MaintenanceLevel := "very_poor" }
            (criteriaExcellent 2026)).Issues = [i]
        ∧ (({ CreateTestProperty 2026 with MaintenanceLevel := "very_poor" }
              : Property).MaintenanceLevel = "very_poor"
            ∧ (criteriaExcellent 2026).MaintenanceLevel = "excellent" → i.Severity = 9 / 10)
        ∧ (¬ (({ CreateTestProperty 2026 with MaintenanceLevel := "very_poor" }
              : Property).MaintenanceLevel = "very_poor"
            ∧ (criteriaExcellent 2026).MaintenanceLevel = "excellent") →
            i.Severity = 5 / 10)) :=
  ⟨(C19_maintenance_conformance (CreateTestProperty 2026) (criteriaGood 2026)).1 (by decide),
    (C19_maintenance_conformance { CreateTestProperty 2026 with MaintenanceLevel := "very_poor" }
      (criteriaExcellent 2026)).2 (by decide)⟩

/-- C20 (as stated, refuted). For criteria whose range is empty (minimum 2000,
maximum 1990) and a property built in 1995, the year built is above the maximum
and the single age issue has severity 0.9, not 0.8. -/
theorem C20_counterexample :
    ({ CreateTestProperty 2026 with YearBuilt := 1995 } : Property).YearBuilt
        > ({ criteriaGood 2026 with MinYearBuilt := 2000, MaxYearBuilt := 1990 }
            : PropertyCondition).MaxYearBuilt
    ∧ (issuesOf "age"
        (ValidateCondition { CreateTestProperty 2026 with YearBuilt := 1995 }
          { criteriaGood 2026 with MinYearBuilt := 2000, MaxYearBuilt := 1990 }).Issues).map
        (fun i => i.Severity) = [9 / 10]
    ∧ (issuesOf "age"
        (ValidateCondition { CreateTestProperty 2026 with YearBuilt := 1995 }
          { criteriaGood 2026 with MinYearBuilt := 2000, MaxYearBuilt := 1990 }).Issues).map
        (fun i => i.Severity) ≠ [8 / 10] := by
  have h : (issuesOf "age"
        (ValidateCondition { CreateTestProperty 2026 with YearBuilt := 1995 }
          { criteriaGood 2026 with MinYearBuilt := 2000, MaxYearBuilt := 1990 }).Issues).map
        (fun i => i.Severity) = [9 / 10] := by
    rw [issuesOf_age]
    simp [ageIssue, CreateTestProperty, criteriaGood]
  refine ⟨by decide, h, ?_⟩
  rw [h]
  norm_num

/-- C20 (amended). The age sub-score is 1.0 with no age issue when the year built
lies in the range of the criteria, and otherwise 0.5 with exactly one issue of
category "age", whose severity is 0.9 when the year built is below the minimum (too
old) and 0.8 otherwise, that is when it is not below the minimum and above the
maximum. -/
theorem C20_age_conformance (p : Property) (c : PropertyCondition) :
    ((c.MinYearBuilt ≤ p.YearBuilt ∧ p.YearBuilt ≤ c.MaxYearBuilt) →
      (ValidateCondition p c).Adjustments.lookup "age" = some 1
      ∧ issuesOf "age" (ValidateCondition p c).Issues = [])
    ∧ (¬ (c.MinYearBuilt ≤ p.YearBuilt ∧ p.YearBuilt ≤ c.MaxYearBuilt) →
      (ValidateCondition p c).Adjustments.lookup "age" = some (1 / 2)
      ∧ ∃ i, issuesOf "age" (ValidateCondition p c).Issues = [i]
        ∧ (p.YearBuilt < c.MinYearBuilt → i.Severity = 9 / 10)
        ∧ (c.MinYearBuilt ≤ p.YearBuilt → p.YearBuilt > c.MaxYearBuilt →
            i.Severity = 8 / 10)) := by
  have hl : (ValidateCondition p c).Adjustments.lookup "age" =
      some (if p.YearBuilt < c.MinYearBuilt ∨ p.YearBuilt > c.MaxYearBuilt
        then 1 / 2 else 1) := by
    rw [ValidateCondition_Adjustments]
    simp [List.lookup]
  constructor
  · intro h
    have hn : ¬ (p.YearBuilt < c.MinYearBuilt ∨ p.YearBuilt > c.MaxYearBuilt) := by omega
    rw [hl, issuesOf_age, if_neg hn, if_neg hn]
    exact ⟨rfl, rfl⟩
  · intro h
    have hp : p.YearBuilt < c.MinYearBuilt ∨ p.YearBuilt > c.MaxYearBuilt := by omega
    rw [hl, issuesOf_age, if_pos hp, if_pos hp]
    refine ⟨rfl, ageIssue p c, rfl, ?_, ?_⟩
    · intro hs
      simp only [ageIssue, if_pos hs]
    · intro hs _
      have : ¬ p.YearBuilt < c.MinYearBuilt := by omega
      simp only [ageIssue, if_neg this]

/-- Witness for C20 (amended): the test property, built in 2021, against the
criteria of "good" in 2026 (range 2016 to 2026) and against the criteria of
"needs_work" (range 0 to 2006). -/
theorem C20_witness :
    ((ValidateCondition (CreateTestProperty 2026) (criteriaGood 2026)).Adjustments.lookup "age"
        = some 1
      ∧ issuesOf "age" (ValidateCondition (CreateTestProperty 2026) (criteriaGood 2026)).Issues
        = [])
    ∧ ((ValidateCondition (CreateTestProperty 2026) (criteriaNeedsWork 2026)).Adjustments.lookup
        "age" = some (1 / 2)
      ∧ ∃ i, issuesOf "age"
          (ValidateCondition (CreateTestProperty 2026) (criteriaNeedsWork 2026)).Issues = [i]
        ∧ ((CreateTestProperty 2026).YearBuilt < (criteriaNeedsWork 2026).MinYearBuilt →
            i.Severity = 9 / 10)
        ∧ ((criteriaNeedsWork 2026).MinYearBuilt ≤ (CreateTestProperty 2026).YearBuilt →
            (CreateTestProperty 2026).YearBuilt > (criteriaNeedsWork 2026).MaxYearBuilt →
            i.Severity = 8 / 10)) :=
  ⟨(C20_age_conformance (CreateTestProperty 2026) (criteriaGood 2026)).1 (by decide),
    (C20_age_conformance (CreateTestProperty 2026) (criteriaNeedsWork 2026)).2 (by decide)⟩

end valuation

namespace valuation

/-- With at most five required features every sub-score and the composite score
lie in [0, 1]. -/
theorem ValidateCondition_scores_unit_interval (p : Property) (c : PropertyCondition)
    (h : c.RequiredFeatures.length ≤ 5) :
    (∀ e ∈ (ValidateCondition p c).Adjustments, 0 ≤ e.2 ∧ e.2 ≤ 1)
    ∧ 0 ≤ (ValidateCondition p c).TotalScore ∧ (ValidateCondition p c).TotalScore ≤ 1 := by
  have hm : ((missingRequired p c).length : ℚ) ≤ 5 := by
    have := missingRequired_length_le p c
    exact_mod_cast le_trans this h
  have hk : (0 : ℚ) ≤ ((missingRequired p c).length : ℚ) := Nat.cast_nonneg _
  have ha : (0 : ℚ) ≤ (if p.YearBuilt < c.MinYearBuilt ∨ p.YearBuilt > c.MaxYearBuilt
      then 1 / 2 else 1) ∧ (if p.YearBuilt < c.MinYearBuilt ∨ p.YearBuilt > c.MaxYearBuilt
      then (1 / 2 : ℚ) else 1) ≤ 1 := by split_ifs <;> norm_num
  have hf : (0 : ℚ) ≤ 1 - ((missingRequired p c).length : ℚ) * (2 / 10)
      ∧ (1 : ℚ) - ((missingRequired p c).length : ℚ) * (2 / 10) ≤ 1 := by
    constructor <;> linarith
  have he := pow_eight_tenths (excludedHits p c)
  have hmn : (0 : ℚ) ≤ (if p.MaintenanceLevel ≠ c.MaintenanceLevel then 7 / 10 else 1)
      ∧ (if p.MaintenanceLevel ≠ c.MaintenanceLevel then (7 / 10 : ℚ) else 1) ≤ 1 := by
    split_ifs <;> norm_num
  have hr : (0 : ℚ) ≤ (if p.RenovationStatus ≠ c.RenovationStatus then 7 / 10 else 1)
      ∧ (if p.RenovationStatus ≠ c.RenovationStatus then (7 / 10 : ℚ) else 1) ≤ 1 := by
    split_ifs <;> norm_num
  refine ⟨?_, ?_, ?_⟩
  · rw [ValidateCondition_Adjustments]
    intro e he'
    simp only [List.mem_cons, List.mem_singleton, List.not_mem_nil, or_false] at he'
    rcases he' with rfl | rfl | rfl | rfl | rfl
    · exact ha
    · exact hf
    · exact ⟨le_of_lt he.1, he.2.1⟩
    · exact hmn
    · exact hr
  · rw [ValidateCondition_TotalScore]
    exact mul_nonneg (mul_nonneg (mul_nonneg (mul_nonneg ha.1 hf.1) (le_of_lt he.1)) hmn.1) hr.1
  · rw [ValidateCondition_TotalScore]
    have mle : ∀ x y : ℚ, 0 ≤ x → x ≤ 1 → 0 ≤ y → y ≤ 1 → x * y ≤ 1 :=
      fun x y hx0 hx1 hy0 hy1 => by nlinarith
    have s1n := mul_nonneg ha.1 hf.1
    have s1 := mle _ _ ha.1 ha.2 hf.1 hf.2
    have s2n := mul_nonneg s1n (le_of_lt he.1)
    have s2 := mle _ _ s1n s1 (le_of_lt he.1) he.2.1
    have s3n := mul_nonneg s2n hmn.1
    have s3 := mle _ _ s2n s2 hmn.1 hmn.2
    exact mle _ _ s3n s3 hr.1 hr.2

end valuation

/-! ## Excluded features, renovation and the confidence of accepted properties -/

namespace valuation

open testutil validation

/-- In a feature list without repetition, the rounds of the excluded-feature check
that log an issue are as many as the excluded features that occur in the list. -/
theorem excludedHits_of_nodup (p : Property) (c : PropertyCondition)
    (hp : p.Features.Nodup) :
    excludedHits p c =
      (c.ExcludedFeatures.filter (fun x => decide (x ∈ p.Features))).length := by
  unfold excludedHits
  induction c.ExcludedFeatures with
  | nil => rfl
  | cons x xs ih =>
    rw [List.map_cons, List.sum_cons, ih, List.count_eq_of_nodup hp]
    by_cases h : x ∈ p.Features
    · simp [h, List.filter_cons]
      omega
    · simp [h, List.filter_cons]

theorem excludedIssues_of_nodup (p : Property) (c : PropertyCondition)
    (hp : p.Features.Nodup) :
    excludedIssues p c =
      (c.ExcludedFeatures.filter (fun x => decide (x ∈ p.Features))).map
        excludedFeatureIssue := by
  unfold excludedIssues
  induction c.ExcludedFeatures with
  | nil => rfl
  | cons x xs ih =>
    rw [List.flatMap_cons, ih, List.count_eq_of_nodup hp]
    by_cases h : x ∈ p.Features
    · simp [h, List.filter_cons]
    · simp [h, List.filter_cons]

/-- C21 (amended). With arithmetic taken exactly: for criteria whose
ExcludedFeatures list has no repeated string and a property whose Features list has
no repeated string, the excluded-feature sub-score is 0.8^k, with k the number of strings of c.ExcludedFeatures that occur in
p.Features, and ValidateCondition logs exactly k issues of category "feature" with
severity 0.6, one "Property has excluded feature: ..." per such string. -/
theorem C21_excluded_features_compound (p : Property) (c : PropertyCondition)
    (hc : c.ExcludedFeatures.Nodup) (hp : p.Features.Nodup) :
    (ValidateCondition p c).Adjustments.lookup "excluded_features" =
      some ((8 / 10) ^ (c.ExcludedFeatures.filter (fun x => decide (x ∈ p.Features))).length)
    ∧ countIssues "feature" (6 / 10) (ValidateCondition p c).Issues =
      (c.ExcludedFeatures.filter (fun x => decide (x ∈ p.Features))).length
    ∧ (ValidateCondition p c).Issues.filter
        (fun i => decide (i.Category = "feature" ∧ i.Severity = 6 / 10)) =
      (c.ExcludedFeatures.filter (fun x => decide (x ∈ p.Features))).map
        (fun x => ⟨"Property has excluded feature: " ++ x, 6 / 10, "feature"⟩)
    ∧ ((c.ExcludedFeatures.filter (fun x => decide (x ∈ p.Features))).Nodup) := by
  have hl : (ValidateCondition p c).Adjustments.lookup "excluded_features" =
      some ((8 / 10) ^ excludedHits p c) := by
    rw [ValidateCondition_Adjustments]
    simp [List.lookup]
  refine ⟨?_, ?_, ?_, hc.filter _⟩
  · rw [hl, excludedHits_of_nodup p c hp]
  · rw [countIssues_excluded, excludedHits_of_nodup p c hp]
  · rw [filter_feature_excluded, excludedIssues_of_nodup p c hp]
    rfl

/-- Witness for C21 (amended): a property with the features garage, needs_repair and
outdated_systems against the criteria of "excellent" in 2026 (k = 2). -/
theorem C21_witness :
    (ValidateCondition
        { CreateTestProperty 2026 with Features := ["garage", "needs_repair", "outdated_systems"] }
        (criteriaExcellent 2026)).Adjustments.lookup "excluded_features" =
      some ((8 / 10) ^ ((criteriaExcellent 2026).ExcludedFeatures.filter
        (fun x => decide (x ∈ ({ CreateTestProperty 2026 with
          Features := ["garage", "needs_repair", "outdated_systems"] } : Property).Features))
        ).length)
    ∧ countIssues "feature" (6 / 10)
        (ValidateCondition
          { CreateTestProperty 2026 with
            Features := ["garage", "needs_repair", "outdated_systems"] }
          (criteriaExcellent 2026)).Issues =
      ((criteriaExcellent 2026).ExcludedFeatures.filter
        (fun x => decide (x ∈ ({ CreateTestProperty 2026 with
          Features := ["garage", "needs_repair", "outdated_systems"] } : Property).Features))
        ).length
    ∧ (ValidateCondition
          { CreateTestProperty 2026 with
            Features := ["garage", "needs_repair", "outdated_systems"] }
          (criteriaExcellent 2026)).Issues.filter
        (fun i => decide (i.Category = "feature" ∧ i.Severity = 6 / 10)) =
      ((criteriaExcellent 2026).ExcludedFeatures.filter
        (fun x => decide (x ∈ ({ CreateTestProperty 2026 with
          Features := ["garage", "needs_repair", "outdated_systems"] } : Property).Features))
        ).map (fun x => ⟨"Property has excluded feature: " ++ x, 6 / 10, "feature"⟩)
    ∧ (((criteriaExcellent 2026).ExcludedFeatures.filter
        (fun x => decide (x ∈ ({ CreateTestProperty 2026 with
          Features := ["garage", "needs_repair", "outdated_systems"] } : Property).Features))
        ).Nodup) :=
  C21_excluded_features_compound
    { CreateTestProperty 2026 with Features := ["garage", "needs_repair", "outdated_systems"] }
    (criteriaExcellent 2026) (by decide) (by decide)

/-- C22. If the renovation status of the property equals the expected one, the
renovation sub-score is 1.0 and no renovation issue is logged; otherwise the
sub-score is 0.7 and exactly one issue of category "renovation" is logged, with
severity 0.9 when the property has "needs_renovation" and "recent" is expected, and
severity 0.6 in every other mismatch. -/
theorem C22_renovation_conformance (p : Property) (c : PropertyCondition) :
    (p.RenovationStatus = c.RenovationStatus →
      (ValidateCondition p c).Adjustments.lookup "renovation" = some 1
      ∧ issuesOf "renovation" (ValidateCondition p c).Issues = [])
    ∧ (p.RenovationStatus ≠ c.RenovationStatus →
      (ValidateCondition p c).Adjustments.lookup "renovation" = some (7 / 10)
      ∧ ∃ i, issuesOf "renovation" (ValidateCondition p c).Issues = [i]
        ∧ (p.RenovationStatus = "needs_renovation" ∧ c.RenovationStatus = "recent" →
            i.Severity = 9 / 10)
        ∧ (¬ (p.RenovationStatus = "needs_renovation" ∧ c.RenovationStatus = "recent") →
            i.Severity = 6 / 10)) := by
  have hl : (ValidateCondition p c).Adjustments.lookup "renovation" =
      some (if p.RenovationStatus ≠ c.RenovationStatus then 7 / 10 else 1) := by
    rw [ValidateCondition_Adjustments]
    simp [List.lookup]
  constructor
  · intro h
    rw [hl, issuesOf_renovation, if_neg (not_not.mpr h), if_neg (not_not.mpr h)]
    exact ⟨rfl, rfl⟩
  · intro h
    rw [hl, issuesOf_renovation, if_pos h, if_pos h]
    refine ⟨rfl, renovationIssue p c, rfl, ?_, ?_⟩
    · intro hs
      simp [renovationIssue, hs]
    · intro hs
      simp only [renovationIssue, if_neg hs]

/-- Witness for C22: the test property (renovation "standard") against "good", and
a "needs_renovation" property against "excellent" (which expects "recent"), in 2026. -/
theorem C22_witness :
    ((ValidateCondition (CreateTestProperty 2026) (criteriaGood 2026)).Adjustments.lookup
        "renovation" = some 1
      ∧ issuesOf "renovation"
          (ValidateCondition (CreateTestProperty 2026) (criteriaGood 2026)).Issues = [])
    ∧ ((ValidateCondition { CreateTestProperty 2026 with RenovationStatus := "needs_renovation" }
          (criteriaExcellent 2026)).Adjustments.lookup "renovation" = some (7 / 10)
      ∧ ∃ i, issuesOf "renovation"
          (ValidateCondition
            { CreateTestProperty 2026 with RenovationStatus := "needs_renovation" }
            (criteriaExcellent 2026)).Issues = [i]
        ∧ (({ CreateTestProperty 2026 with RenovationStatus := "needs_renovation" }
              : Property).RenovationStatus = "needs_renovation"
            ∧ (criteriaExcellent 2026).RenovationStatus = "recent" → i.Severity = 9 / 10)
        ∧ (¬ (({ CreateTestProperty 2026 with RenovationStatus := "needs_renovation" }
              : Property).RenovationStatus = "needs_renovation"
            ∧ (criteriaExcellent 2026).RenovationStatus = "recent") →
            i.Severity = 6 / 10)) :=
  ⟨(C22_renovation_conformance (CreateTestProperty 2026) (criteriaGood 2026)).1 (by decide),
    (C22_renovation_conformance
      { CreateTestProperty 2026 with RenovationStatus := "needs_renovation" }
      (criteriaExcellent 2026)).2 (by decide)⟩

end valuation

/-! ## How the feature list is read -/

namespace valuation

open testutil validation

theorem ValidateCondition_IsValid_eq (p : Property) (c : PropertyCondition) :
    (ValidateCondition p c).IsValid = ((ValidateCondition p c).Issues.length == 0) := rfl

theorem missingRequired_congr (p q : Property) (c : PropertyCondition)
    (h : ∀ r ∈ c.RequiredFeatures, (r ∈ p.Features ↔ r ∈ q.Features)) :
    missingRequired p c = missingRequired q c := by
  rw [missingRequired_eq_filter, missingRequired_eq_filter]
  apply List.filter_congr
  intro r hr
  simp [h r hr]

theorem excludedHits_congr (p q : Property) (c : PropertyCondition)
    (h : ∀ x ∈ c.ExcludedFeatures, p.Features.count x = q.Features.count x) :
    excludedHits p c = excludedHits q c := by
  unfold excludedHits
  congr 1
  exact List.map_congr_left h

theorem excludedIssues_congr (p q : Property) (c : PropertyCondition)
    (h : ∀ x ∈ c.ExcludedFeatures, p.Features.count x = q.Features.count x) :
    excludedIssues p c = excludedIssues q c := by
  have key : ∀ l : List String, (∀ x ∈ l, p.Features.count x = q.Features.count x) →
      l.flatMap (fun excluded => List.replicate (p.Features.count excluded)
        (excludedFeatureIssue excluded))
      = l.flatMap (fun excluded => List.replicate (q.Features.count excluded)
        (excludedFeatureIssue excluded)) := by
    intro l
    induction l with
    | nil => intro _; rfl
    | cons x xs ih =>
      intro hl
      rw [List.flatMap_cons, List.flatMap_cons, hl x (List.mem_cons_self _ _),
        ih (fun y hy => hl y (List.mem_cons_of_mem _ hy))]
  exact key _ h

/-- The scorer reads the feature list of a property only through the presence of
the required features and the number of occurrences of the excluded features. -/
theorem ValidateCondition_eq_of_features (p q : Property) (c : PropertyCondition)
    (hy : p.YearBuilt = q.YearBuilt) (hm : p.MaintenanceLevel = q.MaintenanceLevel)
    (hr : p.RenovationStatus = q.RenovationStatus)
    (h1 : ∀ r ∈ c.RequiredFeatures, (r ∈ p.Features ↔ r ∈ q.Features))
    (h2 : ∀ x ∈ c.ExcludedFeatures, p.Features.count x = q.Features.count x) :
    ValidateCondition p c = ValidateCondition q c := by
  have e1 := missingRequired_congr p q c h1
  have e2 := excludedHits_congr p q c h2
  have e3 := excludedIssues_congr p q c h2
  have e4 : ageIssue p c = ageIssue q c := by unfold ageIssue; rw [hy]
  have e5 : maintenanceIssue p c = maintenanceIssue q c := by unfold maintenanceIssue; rw [hm]
  have e6 : renovationIssue p c = renovationIssue q c := by unfold renovationIssue; rw [hr]
  have hI : (ValidateCondition p c).Issues = (ValidateCondition q c).Issues := by
    rw [ValidateCondition_Issues, ValidateCondition_Issues, e1, e3, e4, e5, e6, hy, hm, hr]
  have hT : (ValidateCondition p c).TotalScore = (ValidateCondition q c).TotalScore := by
    rw [ValidateCondition_TotalScore, ValidateCondition_TotalScore, e1, e2, hy, hm, hr]
  have hA : (ValidateCondition p c).Adjustments = (ValidateCondition q c).Adjustments := by
    rw [ValidateCondition_Adjustments, ValidateCondition_Adjustments, e1, e2, hy, hm, hr]
  have hV : (ValidateCondition p c).IsValid = (ValidateCondition q c).IsValid := by
    rw [ValidateCondition_IsValid_eq, ValidateCondition_IsValid_eq, hI]
  cases hp : ValidateCondition p c with
  | mk v1 i1 t1 a1 =>
    cases hq : ValidateCondition q c with
    | mk v2 i2 t2 a2 =>
      rw [hp, hq] at hI hT hA hV
      simp only at hI hT hA hV
      rw [hI, hT, hA, hV]

theorem featureSum_perm (l1 l2 : List String) (h : l1.Perm l2) :
    featureSum l1 = featureSum l2 :=
  (h.filterMap _).sum_eq

theorem featureSum_insert_unknown (l1 l2 : List String) (f : String)
    (hf : f ∉ FeatureValue.map Prod.fst) :
    featureSum (l1 ++ f :: l2) = featureSum (l1 ++ l2) := by
  have hn : FeatureValue.lookup f = none := (lookup_eq_none_iff _ _).mpr hf
  simp [featureSum, List.filterMap_append, List.filterMap_cons, hn]

end valuation

namespace valuation

open testutil validation

/-- C23. With the current year fixed, a property accepted by ValidateProperty has a
non-empty condition, so the confidence returned by CalculateValuation is never
0.85: it is 0.90 or 0.95, and it is 0.95 exactly when the features list is
non-empty or the scorer reported zero issues. -/
theorem C23_confidence_of_accepted_property (Y : Int) (env : GoEnv) (p : Property)
    (hv : ValidateProperty Y p = none) :
    p.Condition ≠ ""
    ∧ (CalculateValuation Y env p).2.1 ≠ 85 / 100
    ∧ ((CalculateValuation Y env p).2.1 = 90 / 100 ∨ (CalculateValuation Y env p).2.1 = 95 / 100)
    ∧ ((CalculateValuation Y env p).2.1 = 95 / 100 ↔
        (p.Features ≠ [] ∨ (ValidateCondition p (conditionFor Y p)).Issues = [])) := by
  obtain ⟨-, hc, -⟩ := (ValidateProperty_eq_none_iff Y p).mp hv
  have hne : p.Condition ≠ "" := by
    intro h
    rw [conditionOk, h] at hc
    revert hc
    simp [ConditionCriteria]
  have hI := ValidateCondition_IsValid p (conditionFor Y p)
  have hf : p.Features.length > 0 ↔ p.Features ≠ [] := by
    rw [gt_iff_lt, List.length_pos]
  refine ⟨hne, ?_⟩
  rw [CalculateValuation_confidence]
  simp only [hI, hf, if_pos hne]
  by_cases h1 : p.Features = [] <;>
    by_cases h3 : (ValidateCondition p (conditionFor Y p)).Issues = [] <;>
    simp [h1, h3] <;> norm_num

/-- Witness for C23: the test property in the year 2026. -/
theorem C23_witness :
    (CreateTestProperty 2026).Condition ≠ ""
    ∧ (CalculateValuation 2026 envInsertionOrder (CreateTestProperty 2026)).2.1 ≠ 85 / 100
    ∧ ((CalculateValuation 2026 envInsertionOrder (CreateTestProperty 2026)).2.1 = 90 / 100
      ∨ (CalculateValuation 2026 envInsertionOrder (CreateTestProperty 2026)).2.1 = 95 / 100)
    ∧ ((CalculateValuation 2026 envInsertionOrder (CreateTestProperty 2026)).2.1 = 95 / 100 ↔
        ((CreateTestProperty 2026).Features ≠ []
          ∨ (ValidateCondition (CreateTestProperty 2026)
              (conditionFor 2026 (CreateTestProperty 2026))).Issues = [])) :=
  C23_confidence_of_accepted_property 2026 envInsertionOrder (CreateTestProperty 2026)
    (by decide)

set_option maxRecDepth 100000 in
/-- C24 (as stated, refuted in the year 2026). The string functional_systems is not
a key of FeatureValue, yet adding it to the features of the test property changes
the value returned by CalculateValuation, from 663675 to 792375. -/
theorem C24_counterexample :
    "functional_systems" ∉ FeatureValue.map Prod.fst
    ∧ (CalculateValuation 2026 envInsertionOrder (CreateTestProperty 2026)).1 = 663675
    ∧ (CalculateValuation 2026 envInsertionOrder
        { CreateTestProperty 2026 with
          Features := (CreateTestProperty 2026).Features ++ ["functional_systems"] }).1 = 792375
    ∧ (CalculateValuation 2026 envInsertionOrder
        { CreateTestProperty 2026 with
          Features := (CreateTestProperty 2026).Features ++ ["functional_systems"] }).1
      ≠ (CalculateValuation 2026 envInsertionOrder (CreateTestProperty 2026)).1 :=
  ⟨by decide, by decide!, by decide!, by decide!⟩

/-- C24 (amended). For a string f that is not a key of FeatureValue, adding f
anywhere in the features of a property leaves the feature-addition sum and the
verdict of ValidateProperty unchanged; the value returned by CalculateValuation is
unchanged too when f is neither a required nor an excluded feature of the criteria
the property is scored against. -/
theorem C24_unknown_feature_adds_no_value (Y : Int) (env : GoEnv) (p : Property)
    (l1 l2 : List String) (f : String) (hf : f ∉ FeatureValue.map Prod.fst) :
    featureSum (l1 ++ f :: l2) = featureSum (l1 ++ l2)
    ∧ ValidateProperty Y { p with Features := l1 ++ f :: l2 }
      = ValidateProperty Y { p with Features := l1 ++ l2 }
    ∧ (f ∉ (conditionFor Y p).RequiredFeatures → f ∉ (conditionFor Y p).ExcludedFeatures →
        (CalculateValuation Y env { p with Features := l1 ++ f :: l2 }).1
          = (CalculateValuation Y env { p with Features := l1 ++ l2 }).1) := by
  have hs := featureSum_insert_unknown l1 l2 f hf
  refine ⟨hs, rfl, ?_⟩
  intro hr hx
  have hc1 : conditionFor Y { p with Features := l1 ++ f :: l2 } = conditionFor Y p := rfl
  have hc2 : conditionFor Y { p with Features := l1 ++ l2 } = conditionFor Y p := rfl
  have hb1 : basePriceFor { p with Features := l1 ++ f :: l2 } = basePriceFor p := rfl
  have hb2 : basePriceFor { p with Features := l1 ++ l2 } = basePriceFor p := rfl
  have hv : ValidateCondition { p with Features := l1 ++ f :: l2 } (conditionFor Y p)
      = ValidateCondition { p with Features := l1 ++ l2 } (conditionFor Y p) := by
    refine ValidateCondition_eq_of_features { p with Features := l1 ++ f :: l2 }
      { p with Features := l1 ++ l2 } (conditionFor Y p) rfl rfl rfl ?_ ?_
    · intro r hr'
      have : r ≠ f := fun e => hr (e ▸ hr')
      simp [this]
    · intro x hx'
      have : ¬ f = x := fun e => hx (e ▸ hx')
      simp [List.count_cons, this]
  rw [CalculateValuation_value, CalculateValuation_value, hc1, hc2, hb1, hb2, hv]
  simp only [hs]

/-- Witness for C24 (amended): the string "sauna" added to the test property in
2026. -/
theorem C24_witness :
    featureSum (["garage"] ++ "sauna" :: ["garden"]) = featureSum (["garage"] ++ ["garden"])
    ∧ ValidateProperty 2026
        { CreateTestProperty 2026 with Features := ["garage"] ++ "sauna" :: ["garden"] }
      = ValidateProperty 2026
        { CreateTestProperty 2026 with Features := ["garage"] ++ ["garden"] }
    ∧ ("sauna" ∉ (conditionFor 2026 (CreateTestProperty 2026)).RequiredFeatures →
        "sauna" ∉ (conditionFor 2026 (CreateTestProperty 2026)).ExcludedFeatures →
        (CalculateValuation 2026 envInsertionOrder
            { CreateTestProperty 2026 with Features := ["garage"] ++ "sauna" :: ["garden"] }).1
          = (CalculateValuation 2026 envInsertionOrder
            { CreateTestProperty 2026 with Features := ["garage"] ++ ["garden"] }).1) :=
  C24_unknown_feature_adds_no_value 2026 envInsertionOrder (CreateTestProperty 2026)
    ["garage"] ["garden"] "sauna" (by decide)

end valuation

namespace valuation

open testutil validation

set_option maxRecDepth 100000 in
/-- C25 (as stated, refuted in the year 2026). The feature lists
[garage, system_failures] and [garage, system_failures, system_failures, garage]
contain the same set of strings, yet on two properties that differ only in this
ValidateCondition returns different TotalScores against the criteria of "good" and
CalculateValuation returns different values. -/
theorem C25_counterexample :
    (∀ x : String, x ∈ ["garage", "system_failures"] ↔
      x ∈ ["garage", "system_failures", "system_failures", "garage"])
    ∧ (ValidateCondition
          { CreateTestProperty 2026 with Features := ["garage", "system_failures"] }
          (criteriaGood 2026)).TotalScore
      ≠ (ValidateCondition
          { CreateTestProperty 2026 with
            Features := ["garage", "system_failures", "system_failures", "garage"] }
          (criteriaGood 2026)).TotalScore
    ∧ (CalculateValuation 2026 envInsertionOrder
          { CreateTestProperty 2026 with Features := ["garage", "system_failures"] }).1
      ≠ (CalculateValuation 2026 envInsertionOrder
          { CreateTestProperty 2026 with
            Features := ["garage", "system_failures", "system_failures", "garage"] }).1 := by
  refine ⟨?_, by decide!, by decide!⟩
  intro x
  simp only [List.mem_cons, List.mem_singleton, List.not_mem_nil, or_false]
  tauto

/-- C25 (amended). For two properties that agree on all other fields and whose
Features lists contain the same set of strings, ValidateCondition returns the same
IsValid and the same required-feature sub-score and CalculateValuation returns the
same confidence; when moreover every string occurs equally often in both lists
(they differ only in order), ValidateCondition returns the same TotalScore and
CalculateValuation the same value. -/
theorem C25_features_read_with_multiplicity (Y : Int) (env : GoEnv) (p : Property)
    (c : PropertyCondition) (f1 f2 : List String) :
    ((∀ x : String, x ∈ f1 ↔ x ∈ f2) →
      (ValidateCondition { p with Features := f1 } c).IsValid
          = (ValidateCondition { p with Features := f2 } c).IsValid
      ∧ (ValidateCondition { p with Features := f1 } c).Adjustments.lookup "features"
          = (ValidateCondition { p with Features := f2 } c).Adjustments.lookup "features"
      ∧ (CalculateValuation Y env { p with Features := f1 }).2.1
          = (CalculateValuation Y env { p with Features := f2 }).2.1)
    ∧ (f1.Perm f2 →
      (ValidateCondition { p with Features := f1 } c).TotalScore
          = (ValidateCondition { p with Features := f2 } c).TotalScore
      ∧ (CalculateValuation Y env { p with Features := f1 }).1
          = (CalculateValuation Y env { p with Features := f2 }).1) := by
  have hIsValid : ∀ d : PropertyCondition, (∀ x : String, x ∈ f1 ↔ x ∈ f2) →
      (ValidateCondition { p with Features := f1 } d).IsValid
        = (ValidateCondition { p with Features := f2 } d).IsValid := by
    intro d h
    have hi : (ValidateCondition { p with Features := f1 } d).Issues = [] ↔
        (ValidateCondition { p with Features := f2 } d).Issues = [] := by
      rw [Issues_eq_nil_iff, Issues_eq_nil_iff, missingRequired_eq_nil_iff,
        missingRequired_eq_nil_iff, excludedHits_eq_zero_iff, excludedHits_eq_zero_iff]
      simp only [h]
    rw [← ValidateCondition_IsValid, ← ValidateCondition_IsValid] at hi
    cases h1 : (ValidateCondition { p with Features := f1 } d).IsValid <;>
      cases h2 : (ValidateCondition { p with Features := f2 } d).IsValid <;>
      simp [h1, h2] at hi ⊢
  constructor
  · intro h
    have hm : missingRequired { p with Features := f1 } c
        = missingRequired { p with Features := f2 } c :=
      missingRequired_congr _ _ _ (fun r _ => h r)
    refine ⟨hIsValid c h, ?_, ?_⟩
    · rw [ValidateCondition_Adjustments, ValidateCondition_Adjustments, hm]
      simp [List.lookup]
    · have hc1 : conditionFor Y { p with Features := f1 } = conditionFor Y p := rfl
      have hc2 : conditionFor Y { p with Features := f2 } = conditionFor Y p := rfl
      have hlen : (f1.length > 0) ↔ (f2.length > 0) := by
        rw [gt_iff_lt, gt_iff_lt, List.length_pos, List.length_pos]
        constructor
        · intro hne he
          cases f1 with
          | nil => exact hne rfl
          | cons a l => have := (h a).mp (List.mem_cons_self _ _); rw [he] at this; simp at this
        · intro hne he
          cases f2 with
          | nil => exact hne rfl
          | cons a l => have := (h a).mpr (List.mem_cons_self _ _); rw [he] at this; simp at this
      rw [CalculateValuation_confidence, CalculateValuation_confidence, hc1, hc2,
        hIsValid (conditionFor Y p) h]
      simp only [hlen]
  · intro h
    have hv : ∀ d : PropertyCondition, ValidateCondition { p with Features := f1 } d
        = ValidateCondition { p with Features := f2 } d := by
      intro d
      refine ValidateCondition_eq_of_features { p with Features := f1 }
        { p with Features := f2 } d rfl rfl rfl ?_ ?_
      · intro r _
        exact h.mem_iff
      · intro x _
        exact h.count_eq x
    refine ⟨by rw [hv], ?_⟩
    have hc1 : conditionFor Y { p with Features := f1 } = conditionFor Y p := rfl
    have hc2 : conditionFor Y { p with Features := f2 } = conditionFor Y p := rfl
    have hb1 : basePriceFor { p with Features := f1 } = basePriceFor p := rfl
    have hb2 : basePriceFor { p with Features := f2 } = basePriceFor p := rfl
    have hs : featureSum f1 = featureSum f2 := featureSum_perm f1 f2 h
    rw [CalculateValuation_value, CalculateValuation_value, hc1, hc2, hb1, hb2, hv]
    simp only [hs]

/-- Witness for C25 (amended): the feature lists of the refutation have the same
set of strings, and [garage, garden] is a reordering of [garden, garage]. -/
theorem C25_witness :
    ((ValidateCondition
          { CreateTestProperty 2026 with Features := ["garage", "system_failures"] }
          (criteriaGood 2026)).IsValid
        = (ValidateCondition
          { CreateTestProperty 2026 with
            Features := ["garage", "system_failures", "system_failures", "garage"] }
          (criteriaGood 2026)).IsValid
      ∧ (ValidateCondition
          { CreateTestProperty 2026 with Features := ["garage", "system_failures"] }
          (criteriaGood 2026)).Adjustments.lookup "features"
        = (ValidateCondition
          { CreateTestProperty 2026 with
            Features := ["garage", "system_failures", "system_failures", "garage"] }
          (criteriaGood 2026)).Adjustments.lookup "features"
      ∧ (CalculateValuation 2026 envInsertionOrder
          { CreateTestProperty 2026 with Features := ["garage", "system_failures"] }).2.1
        = (CalculateValuation 2026 envInsertionOrder
          { CreateTestProperty 2026 with
            Features := ["garage", "system_failures", "system_failures", "garage"] }).2.1)
    ∧ ((ValidateCondition { CreateTestProperty 2026 with Features := ["garage", "garden"] }
          (criteriaGood 2026)).TotalScore
        = (ValidateCondition { CreateTestProperty 2026 with Features := ["garden", "garage"] }
          (criteriaGood 2026)).TotalScore
      ∧ (CalculateValuation 2026 envInsertionOrder
          { CreateTestProperty 2026 with Features := ["garage", "garden"] }).1
        = (CalculateValuation 2026 envInsertionOrder
          { CreateTestProperty 2026 with Features := ["garden", "garage"] }).1) :=
  ⟨(C25_features_read_with_multiplicity 2026 envInsertionOrder (CreateTestProperty 2026)
      (criteriaGood 2026) ["garage", "system_failures"]
      ["garage", "system_failures", "system_failures", "garage"]).1
      (by intro x; simp only [List.mem_cons, List.mem_singleton, List.not_mem_nil, or_false];
          tauto),
    (C25_features_read_with_multiplicity 2026 envInsertionOrder (CreateTestProperty 2026)
      (criteriaGood 2026) ["garage", "garden"] ["garden", "garage"]).2
      (List.Perm.swap _ _ _)⟩

end valuation

/-! ## Error conversion -/

namespace errors

/-- C26. ConvertToGRPCError maps every ValidationError e to a status with code
InvalidArgument and message "validation error: <e.Field> - <e.Message>", and every
other error to a status with code Internal and the fixed message "internal server
error", so any two errors that are not validation errors give the same output. -/
theorem C26_ConvertToGRPCError_mapping :
    (∀ e : ValidationError,
      ConvertToGRPCError (GoError.validation e) =
        ⟨Code.InvalidArgument, "validation error: " ++ e.Field ++ " - " ++ e.Message⟩)
    ∧ (∀ text : String,
      ConvertToGRPCError (GoError.other text) = ⟨Code.Internal, "internal server error"⟩)
    ∧ (∀ text1 text2 : String,
      ConvertToGRPCError (GoError.other text1) = ConvertToGRPCError (GoError.other text2))
    ∧ ConvertToGRPCError (GoError.validation ⟨"year_built", ErrInvalidYearBuilt⟩) =
        ⟨Code.InvalidArgument, "validation error: year_built - invalid year built"⟩ :=
  ⟨fun _ => rfl, fun _ => rfl, fun _ _ => rfl, by decide⟩

end errors

/-! ## The built-in criteria and reordering -/

namespace valuation

open testutil validation

/-- C27 (amended). With arithmetic taken exactly: for each of the six built-in
criteria the required-feature sub-score is at least 0.4 and 0 < TotalScore <= 1, so the adjusted multiplier c.Multiplier *
TotalScore is strictly positive and at most c.Multiplier; this holds for the
criteria CalculateValuation selects for any property, validated or not. -/
theorem C27_builtin_score_positive (Y : Int) (p : Property) :
    (∀ c ∈ (ConditionCriteria Y).map Prod.snd,
      c.RequiredFeatures.length ≤ 3
      ∧ (∃ s, (ValidateCondition p c).Adjustments.lookup "features" = some s ∧ 4 / 10 ≤ s)
      ∧ 0 < (ValidateCondition p c).TotalScore ∧ (ValidateCondition p c).TotalScore ≤ 1
      ∧ 0 < c.Multiplier * (ValidateCondition p c).TotalScore
      ∧ c.Multiplier * (ValidateCondition p c).TotalScore ≤ c.Multiplier)
    ∧ conditionFor Y p ∈ (ConditionCriteria Y).map Prod.snd
    ∧ 0 < (conditionFor Y p).Multiplier * (ValidateCondition p (conditionFor Y p)).TotalScore
    ∧ (conditionFor Y p).Multiplier * (ValidateCondition p (conditionFor Y p)).TotalScore
        ≤ (conditionFor Y p).Multiplier := by
  have key : ∀ c ∈ (ConditionCriteria Y).map Prod.snd,
      c.RequiredFeatures.length ≤ 3
      ∧ (∃ s, (ValidateCondition p c).Adjustments.lookup "features" = some s ∧ 4 / 10 ≤ s)
      ∧ 0 < (ValidateCondition p c).TotalScore ∧ (ValidateCondition p c).TotalScore ≤ 1
      ∧ 0 < c.Multiplier * (ValidateCondition p c).TotalScore
      ∧ c.Multiplier * (ValidateCondition p c).TotalScore ≤ c.Multiplier := by
    intro c hc
    have hb : 0 < c.Multiplier ∧ c.RequiredFeatures.length ≤ 3 := by
      simp only [ConditionCriteria, List.map_cons, List.map_nil, List.mem_cons,
        List.mem_singleton, List.not_mem_nil, or_false] at hc
      rcases hc with h | h | h | h | h | h <;> rw [h] <;>
        simp [criteriaExcellent, criteriaVeryGood, criteriaGood, criteriaFair, criteriaPoor,
          criteriaNeedsWork]
    obtain ⟨hm, hr⟩ := hb
    have hpos := ValidateCondition_TotalScore_pos p c (by omega)
    have hle := (ValidateCondition_scores_unit_interval p c (by omega)).2.2
    have hk : ((missingRequired p c).length : ℚ) ≤ 3 := by
      have := missingRequired_length_le p c
      exact_mod_cast le_trans this hr
    refine ⟨hr, ⟨1 - ((missingRequired p c).length : ℚ) * (2 / 10), ?_, by linarith⟩,
      hpos, hle, mul_pos hm hpos, ?_⟩
    · rw [ValidateCondition_Adjustments]
      simp [List.lookup]
    · nlinarith
  have hmem : conditionFor Y p ∈ (ConditionCriteria Y).map Prod.snd := by
    have := conditionFor_mem Y p
    simpa [ConditionCriteria] using this
  obtain ⟨-, -, -, -, h1, h2⟩ := key _ hmem
  exact ⟨key, hmem, h1, h2⟩

/-- Witness for C27 (amended): the test property against the criteria of "excellent" in 2026. -/
theorem C27_witness :
    (criteriaExcellent 2026).RequiredFeatures.length ≤ 3
    ∧ (∃ s, (ValidateCondition (CreateTestProperty 2026)
        (criteriaExcellent 2026)).Adjustments.lookup "features" = some s ∧ 4 / 10 ≤ s)
    ∧ 0 < (ValidateCondition (CreateTestProperty 2026) (criteriaExcellent 2026)).TotalScore
    ∧ (ValidateCondition (CreateTestProperty 2026) (criteriaExcellent 2026)).TotalScore ≤ 1
    ∧ 0 < (criteriaExcellent 2026).Multiplier
        * (ValidateCondition (CreateTestProperty 2026) (criteriaExcellent 2026)).TotalScore
    ∧ (criteriaExcellent 2026).Multiplier
        * (ValidateCondition (CreateTestProperty 2026) (criteriaExcellent 2026)).TotalScore
      ≤ (criteriaExcellent 2026).Multiplier :=
  (C27_builtin_score_positive 2026 (CreateTestProperty 2026)).1 (criteriaExcellent 2026)
    (by simp [ConditionCriteria])

/-- C28. For every permutation q of the features of a property, ValidateCondition
on the property with features q returns the same issue list, sub-scores, IsValid and
TotalScore, and CalculateValuation returns the same value and confidence
(arithmetic taken exactly). -/
theorem C28_feature_order_irrelevant (Y : Int) (env : GoEnv) (p : Property)
    (c : PropertyCondition) (q : List String) (hq : q.Perm p.Features) :
    (ValidateCondition { p with Features := q } c).Issues = (ValidateCondition p c).Issues
    ∧ (ValidateCondition { p with Features := q } c).Adjustments
        = (ValidateCondition p c).Adjustments
    ∧ (ValidateCondition { p with Features := q } c).TotalScore
        = (ValidateCondition p c).TotalScore
    ∧ (ValidateCondition { p with Features := q } c).IsValid
        = (ValidateCondition p c).IsValid
    ∧ (CalculateValuation Y env { p with Features := q }).1 = (CalculateValuation Y env p).1
    ∧ (CalculateValuation Y env { p with Features := q }).2.1
        = (CalculateValuation Y env p).2.1 := by
  have hv : ∀ d : PropertyCondition, ValidateCondition { p with Features := q } d
      = ValidateCondition p d := by
    intro d
    refine ValidateCondition_eq_of_features { p with Features := q } p d rfl rfl rfl ?_ ?_
    · intro r _
      exact hq.mem_iff
    · intro x _
      exact hq.count_eq x
  have hc : conditionFor Y { p with Features := q } = conditionFor Y p := rfl
  have hb : basePriceFor { p with Features := q } = basePriceFor p := rfl
  have hs : featureSum q = featureSum p.Features := featureSum_perm q p.Features hq
  have hlen : q.length = p.Features.length := hq.length_eq
  refine ⟨by rw [hv], by rw [hv], by rw [hv], by rw [hv], ?_, ?_⟩
  · rw [CalculateValuation_value, CalculateValuation_value, hc, hb, hv]
    simp only [hs]
  · rw [CalculateValuation_confidence, CalculateValuation_confidence, hc, hv]
    simp only [hlen]

/-- Witness for C28: the features of the test property in reverse order, in 2026. -/
theorem C28_witness :
    (ValidateCondition { CreateTestProperty 2026 with Features := ["garden", "garage"] }
        (criteriaGood 2026)).Issues
      = (ValidateCondition (CreateTestProperty 2026) (criteriaGood 2026)).Issues
    ∧ (ValidateCondition { CreateTestProperty 2026 with Features := ["garden", "garage"] }
        (criteriaGood 2026)).Adjustments
      = (ValidateCondition (CreateTestProperty 2026) (criteriaGood 2026)).Adjustments
    ∧ (ValidateCondition { CreateTestProperty 2026 with Features := ["garden", "garage"] }
        (criteriaGood 2026)).TotalScore
      = (ValidateCondition (CreateTestProperty 2026) (criteriaGood 2026)).TotalScore
    ∧ (ValidateCondition { CreateTestProperty 2026 with Features := ["garden", "garage"] }
        (criteriaGood 2026)).IsValid
      = (ValidateCondition (CreateTestProperty 2026) (criteriaGood 2026)).IsValid
    ∧ (CalculateValuation 2026 envInsertionOrder
        { CreateTestProperty 2026 with Features := ["garden", "garage"] }).1
      = (CalculateValuation 2026 envInsertionOrder (CreateTestProperty 2026)).1
    ∧ (CalculateValuation 2026 envInsertionOrder
        { CreateTestProperty 2026 with Features := ["garden", "garage"] }).2.1
      = (CalculateValuation 2026 envInsertionOrder (CreateTestProperty 2026)).2.1 :=
  C28_feature_order_irrelevant 2026 envInsertionOrder (CreateTestProperty 2026)
    (criteriaGood 2026) ["garden", "garage"] (List.Perm.swap _ _ _)

end valuation

/-! ## The scores in `float64` -/

namespace valuation

open testutil validation

/-- The `float64` blocks log the same issues as the exact ones; only the score
differs. -/
theorem validateF64_issues (p : Property) (c : PropertyCondition)
    (issues : List ValidationIssue) :
    (validateRequiredFeaturesF64 p c issues).1 = (validateRequiredFeatures p c issues).1
    ∧ (validateExcludedFeaturesF64 p c issues).1 = (validateExcludedFeatures p c issues).1 := by
  refine ⟨rfl, ?_⟩
  unfold validateExcludedFeaturesF64 validateExcludedFeatures
  have inner : ∀ (x : String) (fs : List String) (l : List ValidationIssue) (s t : ℚ),
      (fs.foldl (excludedFeatureInnerF64 x) (l, s)).1
        = (fs.foldl (excludedFeatureInner x) (l, t)).1 := by
    intro x fs
    induction fs with
    | nil => intro l s t; rfl
    | cons f fs ih =>
      intro l s t
      by_cases h : f = x
      · simp only [List.foldl, excludedFeatureInnerF64, excludedFeatureInner, if_pos h]
        exact ih _ _ _
      · simp only [List.foldl, excludedFeatureInnerF64, excludedFeatureInner, if_neg h]
        exact ih _ _ _
  have outer : ∀ (xs : List String) (l : List ValidationIssue) (s t : ℚ),
      (xs.foldl (excludedFeatureStepF64 p) (l, s)).1
        = (xs.foldl (excludedFeatureStep p) (l, t)).1 := by
    intro xs
    induction xs with
    | nil => intro l s t; rfl
    | cons x xs ih =>
      intro l s t
      simp only [List.foldl]
      have h1 := inner x p.Features l s t
      have e1 : excludedFeatureStepF64 p (l, s) x
          = ((excludedFeatureStepF64 p (l, s) x).1, (excludedFeatureStepF64 p (l, s) x).2) := rfl
      have e2 : excludedFeatureStep p (l, t) x
          = ((excludedFeatureStep p (l, t) x).1, (excludedFeatureStep p (l, t) x).2) := rfl
      rw [e1, e2]
      have h2 : (excludedFeatureStepF64 p (l, s) x).1 = (excludedFeatureStep p (l, t) x).1 := h1
      rw [h2]
      exact ih _ _ _
  exact outer _ _ _ _

set_option maxRecDepth 100000 in
/-- C18 (as stated, refuted). The test property of the year 2026 has none of
energy_efficient, modern_appliances, smart_home; scored against the built-in
"excellent" criteria in float64 its required-feature score 1.0 - 3 * 0.2 is
900719925474099 / 2^51 = 0.3999999999999999..., which is neither the float64 0.4
(3602879701896397 / 2^53) nor the number 0.4. -/
theorem C18_counterexample :
    ("energy_efficient" ∉ (CreateTestProperty 2026).Features
      ∧ "modern_appliances" ∉ (CreateTestProperty 2026).Features
      ∧ "smart_home" ∉ (CreateTestProperty 2026).Features)
    ∧ (validateRequiredFeaturesF64 (CreateTestProperty 2026) (criteriaExcellent 2026) []).2
        = 900719925474099 / 2251799813685248
    ∧ roundF64 (4 / 10) = 3602879701896397 / 9007199254740992
    ∧ (validateRequiredFeaturesF64 (CreateTestProperty 2026) (criteriaExcellent 2026) []).2
        ≠ roundF64 (4 / 10)
    ∧ (validateRequiredFeaturesF64 (CreateTestProperty 2026) (criteriaExcellent 2026) []).2
        ≠ 4 / 10 :=
  ⟨by decide, by decide!, by decide!, by decide!, by decide!⟩

set_option maxRecDepth 100000 in
/-- C21 (as stated, refuted). The features garage, needs_repair, outdated_systems
and the excluded features of the built-in "excellent" criteria have no repeated
string and k = 2 of the excluded features occur; in float64 the excluded-feature
score 1.0 * 0.8 * 0.8 is 1441151880758559 / 2^51 = 0.6400000000000001..., which is
neither the float64 0.64 (5764607523034235 / 2^53) nor the number 0.64. -/
theorem C21_counterexample :
    (criteriaExcellent 2026).ExcludedFeatures.Nodup
    ∧ (["garage", "needs_repair", "outdated_systems"] : List String).Nodup
    ∧ ((criteriaExcellent 2026).ExcludedFeatures.filter
        (fun x => decide (x ∈ ["garage", "needs_repair", "outdated_systems"]))).length = 2
    ∧ (validateExcludedFeaturesF64
        { CreateTestProperty 2026 with Features := ["garage", "needs_repair", "outdated_systems"] }
        (criteriaExcellent 2026) []).2 = 1441151880758559 / 2251799813685248
    ∧ roundF64 (64 / 100) = 5764607523034235 / 9007199254740992
    ∧ (validateExcludedFeaturesF64
        { CreateTestProperty 2026 with Features := ["garage", "needs_repair", "outdated_systems"] }
        (criteriaExcellent 2026) []).2 ≠ roundF64 (64 / 100)
    ∧ (validateExcludedFeaturesF64
        { CreateTestProperty 2026 with Features := ["garage", "needs_repair", "outdated_systems"] }
        (criteriaExcellent 2026) []).2 ≠ (8 / 10) ^ 2 :=
  ⟨by decide, by decide, by decide, by decide!, by decide!, by decide!, by decide!⟩

set_option maxRecDepth 100000 in
/-- C27 (as stated, refuted). For a property of condition "excellent" without
features, CalculateValuation selects the built-in "excellent" criteria, and in
float64 the required-feature score 1.0 - 3 * 0.2 = 900719925474099 / 2^51 is below
0.4, as a number and as a float64. -/
theorem C27_counterexample :
    conditionFor 2026 { invalidBase 2026 with Condition := "excellent" }
      = criteriaExcellent 2026
    ∧ (validateRequiredFeaturesF64 { invalidBase 2026 with Condition := "excellent" }
        (conditionFor 2026 { invalidBase 2026 with Condition := "excellent" }) []).2
        = 900719925474099 / 2251799813685248
    ∧ (validateRequiredFeaturesF64 { invalidBase 2026 with Condition := "excellent" }
        (conditionFor 2026 { invalidBase 2026 with Condition := "excellent" }) []).2 < 4 / 10
    ∧ (validateRequiredFeaturesF64 { invalidBase 2026 with Condition := "excellent" }
        (conditionFor 2026 { invalidBase 2026 with Condition := "excellent" }) []).2
        < roundF64 (4 / 10) :=
  ⟨rfl, by decide!, by decide!, by decide!⟩

end valuation
